import Mathlib

/-!
Verification of the loop-route server (`server/index.js`) against its
natural-language specification.

The JavaScript source is shallowly embedded over exact real arithmetic:
JS numbers become `ℝ`, transcendental library calls (`Math.sin`, `Math.cos`,
`Math.asin`, `Math.sqrt`) become the corresponding Mathlib functions on `ℝ`,
`Math.round` becomes `⌊x + 1/2⌋ : ℤ` (JS rounds half toward +∞), JS arrays
become lists, absent/`null` values become `Option`, and a thrown exception
becomes the `Except.error` branch of an `Except` result.  The two network
calls (`orsRoundTripGeoJson`, `orsDirectionsGeoJson`) are the excluded
provider transport; following the spec's provider contract they are passed
in as function parameters returning `Except` (success payload or the
rate-limited / generic failure signal), and `Math.random`-derived values
(the per-attempt seed stream, the detour side) are likewise explicit
parameters.
-/

namespace LoopRoute

noncomputable section

open Real

/-- A coordinate as stored in the GeoJSON arrays of the source: `[lng, lat]`. -/
abbrev Pt := ℝ × ℝ

/-- `function toRad(deg) { return (deg * Math.PI) / 180; }` -/
def toRad (deg : ℝ) : ℝ := deg * π / 180

/-- Earth radius constant `R` from `haversineM`. -/
def earthR : ℝ := 6371000

/-- The intermediate value `a` computed inside `haversineM`. -/
def haversineA (lat1 lon1 lat2 lon2 : ℝ) : ℝ :=
  Real.sin (toRad (lat2 - lat1) / 2) ^ 2 +
    Real.cos (toRad lat1) * Real.cos (toRad lat2) *
      Real.sin (toRad (lon2 - lon1) / 2) ^ 2

/-- `function haversineM(lat1, lon1, lat2, lon2)` from the source:
`2 * R * Math.asin(Math.sqrt(a))`. -/
def haversineM (lat1 lon1 lat2 lon2 : ℝ) : ℝ :=
  2 * earthR * Real.arcsin (Real.sqrt (haversineA lat1 lon1 lat2 lon2))

/-- `haversineM` applied to two `[lng, lat]` points, in the argument order
used throughout the source (`haversineM(lat1, lng1, lat2, lng2)`). -/
def havP (p q : Pt) : ℝ := haversineM p.2 p.1 q.2 q.1

/-- JS `Math.round`: rounds half toward positive infinity. -/
def jsRound (x : ℝ) : ℤ := ⌊x + 1 / 2⌋

-- ---------------------------------------------------------------------------
-- Basic facts about the haversine distance
-- ---------------------------------------------------------------------------

lemma haversineA_eq (lat1 lon1 lat2 lon2 : ℝ) :
    haversineA lat1 lon1 lat2 lon2 =
      (1 - (Real.sin (toRad lat1) * Real.sin (toRad lat2) +
        Real.cos (toRad lat1) * Real.cos (toRad lat2) *
          Real.cos (toRad (lon2 - lon1)))) / 2 := by
  unfold haversineA
  have key : ∀ y : ℝ, Real.sin (y / 2) ^ 2 = 1 / 2 - Real.cos y / 2 := by
    intro y
    rw [Real.sin_sq_eq_half_sub]
    have h2 : (2 : ℝ) * (y / 2) = y := by ring
    rw [h2]
  have h1 : toRad (lat2 - lat1) / 2 = (toRad lat2 - toRad lat1) / 2 := by
    unfold toRad; ring
  rw [h1, key, key, Real.cos_sub]
  ring

lemma haversineA_nonneg (lat1 lon1 lat2 lon2 : ℝ) :
    0 ≤ haversineA lat1 lon1 lat2 lon2 := by
  rw [haversineA_eq]
  set s1 := Real.sin (toRad lat1)
  set s2 := Real.sin (toRad lat2)
  set c1 := Real.cos (toRad lat1)
  set c2 := Real.cos (toRad lat2)
  set t := Real.cos (toRad (lon2 - lon1))
  have h1 : s1 ^ 2 + c1 ^ 2 = 1 := Real.sin_sq_add_cos_sq _
  have h2 : s2 ^ 2 + c2 ^ 2 = 1 := Real.sin_sq_add_cos_sq _
  have ht1 : t ≤ 1 := Real.cos_le_one _
  have ht2 : -1 ≤ t := Real.neg_one_le_cos _
  nlinarith [sq_nonneg (s1 - s2), sq_nonneg (c1 - c2), sq_nonneg (c1 + c2),
    mul_nonneg (by linarith : (0:ℝ) ≤ 1 - t) (sq_nonneg (c1 - c2)),
    mul_nonneg (by linarith : (0:ℝ) ≤ 1 + t) (sq_nonneg (c1 + c2))]

lemma haversineA_le_one (lat1 lon1 lat2 lon2 : ℝ) :
    haversineA lat1 lon1 lat2 lon2 ≤ 1 := by
  rw [haversineA_eq]
  set s1 := Real.sin (toRad lat1)
  set s2 := Real.sin (toRad lat2)
  set c1 := Real.cos (toRad lat1)
  set c2 := Real.cos (toRad lat2)
  set t := Real.cos (toRad (lon2 - lon1))
  have h1 : s1 ^ 2 + c1 ^ 2 = 1 := Real.sin_sq_add_cos_sq _
  have h2 : s2 ^ 2 + c2 ^ 2 = 1 := Real.sin_sq_add_cos_sq _
  have ht1 : t ≤ 1 := Real.cos_le_one _
  have ht2 : -1 ≤ t := Real.neg_one_le_cos _
  nlinarith [sq_nonneg (s1 + s2), sq_nonneg (c1 - c2), sq_nonneg (c1 + c2),
    mul_nonneg (by linarith : (0:ℝ) ≤ 1 - t) (sq_nonneg (c1 + c2)),
    mul_nonneg (by linarith : (0:ℝ) ≤ 1 + t) (sq_nonneg (c1 - c2))]

lemma haversineM_nonneg (lat1 lon1 lat2 lon2 : ℝ) :
    0 ≤ haversineM lat1 lon1 lat2 lon2 := by
  unfold haversineM earthR
  have h := Real.arcsin_nonneg.mpr (Real.sqrt_nonneg (haversineA lat1 lon1 lat2 lon2))
  positivity

lemma haversineM_self (lat lon : ℝ) : haversineM lat lon lat lon = 0 := by
  unfold haversineM haversineA toRad
  simp

lemma havP_nonneg (p q : Pt) : 0 ≤ havP p q := haversineM_nonneg _ _ _ _

lemma havP_self (p : Pt) : havP p p = 0 := haversineM_self _ _

/-- Modelled from the spec's words: the clamp of the inner asin argument to
`[0, 1]` that the spec mandates ("clamp the inner asin argument to [0,1] to
avoid NaN from floating-point overshoot"). The source `haversineM`
(lines 23-35) does NOT contain it. -/
def jsClamp01 (x : ℝ) : ℝ := min 1 (max 0 x)

/-- Modelled from the spec's words: the haversine distance with the mandated
clamp inserted around the asin argument, for comparison with the
source-faithful `haversineM`. -/
def haversineMClamped (lat1 lon1 lat2 lon2 : ℝ) : ℝ :=
  2 * earthR * Real.arcsin (Real.sqrt (jsClamp01 (haversineA lat1 lon1 lat2 lon2)))

lemma jsClamp01_mem (x : ℝ) : 0 ≤ jsClamp01 x ∧ jsClamp01 x ≤ 1 := by
  unfold jsClamp01
  exact ⟨le_min (by norm_num) (le_max_left 0 x), min_le_left _ _⟩

lemma jsClamp01_of_mem {x : ℝ} (h0 : 0 ≤ x) (h1 : x ≤ 1) : jsClamp01 x = x := by
  unfold jsClamp01
  rw [max_eq_right h0, min_eq_right h1]

lemma haversineMClamped_eq (lat1 lon1 lat2 lon2 : ℝ) :
    haversineMClamped lat1 lon1 lat2 lon2 = haversineM lat1 lon1 lat2 lon2 := by
  unfold haversineMClamped haversineM
  rw [jsClamp01_of_mem (haversineA_nonneg lat1 lon1 lat2 lon2)
    (haversineA_le_one lat1 lon1 lat2 lon2)]

lemma haversineMClamped_nonneg (lat1 lon1 lat2 lon2 : ℝ) :
    0 ≤ haversineMClamped lat1 lon1 lat2 lon2 := by
  rw [haversineMClamped_eq]
  exact haversineM_nonneg lat1 lon1 lat2 lon2

lemma haversineMClamped_self (lat lon : ℝ) :
    haversineMClamped lat lon lat lon = 0 := by
  rw [haversineMClamped_eq]
  exact haversineM_self lat lon

lemma haversineA_antipode (lat lon : ℝ) :
    haversineA lat lon (-lat) (lon + 180) = 1 := by
  unfold haversineA toRad
  have h1 : (-lat - lat) * π / 180 / 2 = -(lat * π / 180) := by ring
  have h2 : (lon + 180 - lon) * π / 180 / 2 = π / 2 := by ring
  have hc : (-lat) * π / 180 = -(lat * π / 180) := by ring
  rw [h1, h2, hc, Real.sin_neg, Real.cos_neg, Real.sin_pi_div_two]
  linear_combination Real.sin_sq_add_cos_sq (lat * π / 180)

lemma jsClamp01_overshoot : jsClamp01 ((1 : ℝ) + 1 / 2 ^ 51) = 1 := by
  unfold jsClamp01
  rw [max_eq_right (by positivity), min_eq_left (by norm_num)]

lemma haversineM_comm (lat1 lon1 lat2 lon2 : ℝ) :
    haversineM lat1 lon1 lat2 lon2 = haversineM lat2 lon2 lat1 lon1 := by
  unfold haversineM haversineA
  have h1 : toRad (lat2 - lat1) / 2 = -(toRad (lat1 - lat2) / 2) := by
    unfold toRad; ring
  have h2 : toRad (lon2 - lon1) / 2 = -(toRad (lon1 - lon2) / 2) := by
    unfold toRad; ring
  rw [h1, h2, Real.sin_neg, Real.sin_neg]
  ring_nf

lemma havP_comm (p q : Pt) : havP p q = havP q p := haversineM_comm _ _ _ _

/-- On the equator the haversine distance has the exact closed form
`K * (v - u)` with `K = earthR * π / 180` (for `0 ≤ v - u ≤ 180`). -/
lemma haversineM_equator (u v : ℝ) (h0 : 0 ≤ v - u) (h1 : v - u ≤ 180) :
    haversineM 0 u 0 v = earthR * π / 180 * (v - u) := by
  have hpi := Real.pi_pos
  unfold haversineM haversineA toRad
  have hz : Real.sin ((0 - 0 : ℝ) * π / 180 / 2) = 0 := by norm_num
  rw [hz]
  have hc : Real.cos ((0 : ℝ) * π / 180) = 1 := by norm_num
  rw [hc]
  set t := (v - u) * π / 180 / 2 with ht
  have htnn : 0 ≤ t := by
    rw [ht]; positivity
  have htle : t ≤ π / 2 := by
    rw [ht]
    rw [div_le_div_iff (by norm_num) (by norm_num : (0:ℝ) < 2)]
    nlinarith
  have hsin_nn : 0 ≤ Real.sin t :=
    Real.sin_nonneg_of_nonneg_of_le_pi htnn (by linarith)
  have hsq : Real.sqrt (0 ^ 2 + 1 * 1 * Real.sin t ^ 2) = Real.sin t := by
    rw [show (0:ℝ) ^ 2 + 1 * 1 * Real.sin t ^ 2 = Real.sin t ^ 2 by ring]
    exact Real.sqrt_sq hsin_nn
  rw [hsq, Real.arcsin_sin (by linarith) htle]
  rw [ht]; ring

lemma haversineM_equator_pos (u v : ℝ) (h0 : 0 < v - u) (h1 : v - u ≤ 180) :
    0 < haversineM 0 u 0 v := by
  rw [haversineM_equator u v (le_of_lt h0) h1]
  have hpi := Real.pi_pos
  have hK : 0 < earthR * π / 180 := by unfold earthR; positivity
  exact mul_pos hK h0

/-- Along a meridian (equal longitudes) the haversine distance has the exact
closed form `K * (v - u)` with `K = earthR * π / 180` (for `0 ≤ v - u ≤ 180`);
the longitude term of `a` vanishes, so the fixed longitude `L` is arbitrary. -/
lemma haversineM_meridian (u v L : ℝ) (h0 : 0 ≤ v - u) (h1 : v - u ≤ 180) :
    haversineM u L v L = earthR * π / 180 * (v - u) := by
  have hpi := Real.pi_pos
  unfold haversineM haversineA toRad
  have hz : Real.sin ((L - L) * π / 180 / 2) = 0 := by norm_num
  rw [hz]
  set t := (v - u) * π / 180 / 2 with ht
  have htnn : 0 ≤ t := by rw [ht]; positivity
  have htle : t ≤ π / 2 := by
    rw [ht]
    rw [div_le_div_iff (by norm_num) (by norm_num : (0:ℝ) < 2)]
    nlinarith
  have hsin_nn : 0 ≤ Real.sin t :=
    Real.sin_nonneg_of_nonneg_of_le_pi htnn (by linarith)
  have hsq : Real.sqrt (Real.sin t ^ 2 +
      Real.cos (u * π / 180) * Real.cos (v * π / 180) * 0 ^ 2) = Real.sin t := by
    rw [show Real.sin t ^ 2 + Real.cos (u * π / 180) * Real.cos (v * π / 180) * 0 ^ 2
        = Real.sin t ^ 2 by ring]
    exact Real.sqrt_sq hsin_nn
  rw [hsq, Real.arcsin_sin (by linarith) htle]
  rw [ht]; ring

lemma haversineM_meridian_pos (u v L : ℝ) (h0 : 0 < v - u) (h1 : v - u ≤ 180) :
    0 < haversineM u L v L := by
  rw [haversineM_meridian u v L (le_of_lt h0) h1]
  have hpi := Real.pi_pos
  have hK : 0 < earthR * π / 180 := by unfold earthR; positivity
  exact mul_pos hK h0

/-- Lower bound for the meters-per-degree constant on the equator. -/
lemma equatorK_gt : 106183 < earthR * π / 180 := by
  have h := Real.pi_gt_3141592
  unfold earthR
  nlinarith

/-- Upper bound for the meters-per-degree constant can on the equator. -/
lemma equatorK_lt : earthR * π / 180 < 111493 := by
  have h := Real.pi_lt_315
  unfold earthR
  nlinarith

/-- Rounding an integer gives it back. -/
lemma jsRound_intCast (c : ℤ) : jsRound (c : ℝ) = c := by
  unfold jsRound
  rw [Int.floor_int_add]
  norm_num

lemma jsRound_zero : jsRound 0 = 0 := by
  have h := jsRound_intCast 0
  simpa using h

-- ---------------------------------------------------------------------------
-- `lineDistanceM` (total path length) and its reversal invariance
-- ---------------------------------------------------------------------------

/-- The accumulation loop of `lineDistanceM`: sum of `haversineM` over
consecutive coordinate pairs (`total` in the source). -/
def pathSum : List Pt → ℝ
  | [] => 0
  | [_] => 0
  | p :: q :: rest => havP p q + pathSum (q :: rest)

/-- `function lineDistanceM(coordsLngLat)` from the source: `null` for fewer
than 2 points, otherwise the summed consecutive haversine distances. -/
def lineDistanceM (coords : List Pt) : Option ℝ :=
  if coords.length < 2 then none else some (pathSum coords)

/-- Contribution of appending one extra point to `pathSum`. -/
def tailDist (l : List Pt) (a : Pt) : ℝ :=
  match l.getLast? with
  | none => 0
  | some x => havP x a

lemma pathSum_snoc : ∀ (l : List Pt) (a : Pt),
    pathSum (l ++ [a]) = pathSum l + tailDist l a := by
  intro l
  induction l with
  | nil => intro a; simp [pathSum, tailDist]
  | cons x xs ih =>
    intro a
    cases xs with
    | nil => simp [pathSum, tailDist]
    | cons y ys =>
      have h1 : (x :: y :: ys) ++ [a] = x :: ((y :: ys) ++ [a]) := by simp
      rw [h1]
      have h2 : pathSum (x :: ((y :: ys) ++ [a]))
          = havP x y + pathSum ((y :: ys) ++ [a]) := by
        simp [pathSum]
      rw [h2, ih a]
      have h3 : tailDist (x :: y :: ys) a = tailDist (y :: ys) a := by
        simp [tailDist, List.getLast?]
      rw [h3]
      simp [pathSum]
      ring

lemma pathSum_reverse (l : List Pt) : pathSum l.reverse = pathSum l := by
  induction l with
  | nil => rfl
  | cons p t ih =>
    rw [List.reverse_cons, pathSum_snoc, ih]
    cases t with
    | nil => simp [pathSum, tailDist]
    | cons q r =>
      have h1 : tailDist (q :: r).reverse p = havP q p := by
        unfold tailDist
        rw [List.getLast?_reverse]
        rfl
      rw [h1, havP_comm q p]
      simp [pathSum]
      ring

lemma lineDistanceM_reverse (coords : List Pt) :
    lineDistanceM coords.reverse = lineDistanceM coords := by
  unfold lineDistanceM
  rw [List.length_reverse, pathSum_reverse]

-- ---------------------------------------------------------------------------
-- `overlapRatio`: grid-cell based self-overlap estimator
-- ---------------------------------------------------------------------------

/-- Segment `i` (for `1 ≤ i < seq.length`) runs from `coords[i-1]`… -/
def segPtA (seq : List Pt) (i : ℕ) : Pt := seq.getD (i - 1) (0, 0)

/-- …to `coords[i]`. -/
def segPtB (seq : List Pt) (i : ℕ) : Pt := seq.getD i (0, 0)

/-- `segLen` of segment `i` in the `overlapRatio` loop. -/
def segLenAt (seq : List Pt) (i : ℕ) : ℝ := havP (segPtA seq i) (segPtB seq i)

/-- `avgLat` from `overlapRatio`: mean latitude of the sequence. -/
def avgLatOf (seq : List Pt) : ℝ := (seq.map Prod.snd).sum / seq.length

/-- `snapLat = gridMeters / mPerDegLat` with `mPerDegLat = 111320`. -/
def snapLatOf (gridMeters : ℝ) : ℝ := gridMeters / 111320

/-- `snapLon = gridMeters / mPerDegLon` with
`mPerDegLon = 111320 * Math.cos(toRad(avgLat))`. -/
def snapLonOf (seq : List Pt) (gridMeters : ℝ) : ℝ :=
  gridMeters / (111320 * Real.cos (toRad (avgLatOf seq)))

/-- The grid-cell key of segment `i`: the snapped midpoint (the JS string
key is an injective encoding of this integer pair). -/
def segKey (seq : List Pt) (g : ℝ) (i : ℕ) : ℤ × ℤ :=
  (jsRound (((segPtA seq i).2 + (segPtB seq i).2) / 2 / snapLatOf g),
   jsRound (((segPtA seq i).1 + (segPtB seq i).1) / 2 / snapLonOf seq g))

/-- State of the `overlapRatio` loop: the `seen` map (association list of
grid key → first segment index) plus the two accumulators. -/
structure OvState where
  seen : List ((ℤ × ℤ) × ℕ)
  overlapped : ℝ
  total : ℝ

/-- `Map.get` on the modelled `seen` map. -/
def seenLookup (k : ℤ × ℤ) : List ((ℤ × ℤ) × ℕ) → Option ℕ
  | [] => none
  | e :: rest => if e.1 = k then some e.2 else seenLookup k rest

/-- One iteration of the `overlapRatio` loop body. -/
def ovStep (seq : List Pt) (g : ℝ) (st : OvState) (i : ℕ) : OvState :=
  match seenLookup (segKey seq g i) st.seen with
  | some lastIdx =>
      if 12 < i - lastIdx then
        { seen := st.seen, overlapped := st.overlapped + segLenAt seq i,
          total := st.total + segLenAt seq i }
      else { st with total := st.total + segLenAt seq i }
  | none =>
      { seen := st.seen ++ [(segKey seq g i, i)], overlapped := st.overlapped,
        total := st.total + segLenAt seq i }

/-- The whole `overlapRatio` loop (`for i = 1; i < length; i++`). -/
def ovLoop (seq : List Pt) (g : ℝ) : OvState :=
  (List.range' 1 (seq.length - 1)).foldl (ovStep seq g) ⟨[], 0, 0⟩

/-- `function overlapRatio(coordsLngLat, gridMeters = 20)` from the source. -/
def overlapRatio (seq : List Pt) (gridMeters : ℝ) : ℝ :=
  if seq.length < 3 then 1
  else if 0 < (ovLoop seq gridMeters).total then
    (ovLoop seq gridMeters).overlapped / (ovLoop seq gridMeters).total
  else 1

/-- First index `j ≤ i` sharing segment `i`'s grid key, looking only at the
indices `1 … i-1` before `i` (and defaulting to `i` itself). -/
def firstBefore (seq : List Pt) (g : ℝ) (i : ℕ) : ℕ :=
  ((List.range' 1 (i - 1)).find? (fun j => segKey seq g j = segKey seq g i)).getD i

/-- First segment index (anywhere in the sequence) sharing segment `i`'s
grid key. -/
def firstWithKey (seq : List Pt) (g : ℝ) (i : ℕ) : ℕ :=
  ((List.range' 1 (seq.length - 1)).find?
    (fun j => segKey seq g j = segKey seq g i)).getD i

/-- Total length accumulated by the `overlapRatio` loop, declaratively. -/
def totalLenOf (seq : List Pt) : ℝ :=
  ((List.range' 1 (seq.length - 1)).map (segLenAt seq)).sum

/-- Segment indices whose grid cell was first visited at least `t` indices
earlier. -/
def overlappedIdxs (t : ℕ) (seq : List Pt) (g : ℝ) : List ℕ :=
  (List.range' 1 (seq.length - 1)).filter (fun i => t ≤ i - firstWithKey seq g i)

/-- Overlapped length, declaratively, with locality threshold `t`. -/
def overlappedLenOf (t : ℕ) (seq : List Pt) (g : ℝ) : ℝ :=
  ((overlappedIdxs t seq g).map (segLenAt seq)).sum

/-- Declarative overlap ratio with locality threshold `t` (a segment is
overlapped when its cell was first visited at least `t` indices earlier),
guarding the `total = 0` case exactly as the source does. -/
def overlapRatioSpec (t : ℕ) (seq : List Pt) (g : ℝ) : ℝ :=
  if seq.length < 3 then 1
  else if 0 < totalLenOf seq then overlappedLenOf t seq g / totalLenOf seq
  else 1

/-- Modelled from the claim's words (for comparison with the source
definition): overlapped-length over total-length where a segment is
overlapped exactly when its cell was visited by a segment at least 12
indices earlier; 1 for fewer than 3 points. -/
def overlapRatioClaim (seq : List Pt) (g : ℝ) : ℝ :=
  if seq.length < 3 then 1 else overlappedLenOf 12 seq g / totalLenOf seq

lemma seenLookup_append (k : ℤ × ℤ) (l1 l2 : List ((ℤ × ℤ) × ℕ)) :
    seenLookup k (l1 ++ l2) = (seenLookup k l1).or (seenLookup k l2) := by
  induction l1 with
  | nil => simp [seenLookup]
  | cons e rest ih =>
    by_cases he : e.1 = k
    · simp [seenLookup, he]
    · simp [seenLookup, he, ih]

/-- Loop invariant of the `overlapRatio` fold over the prefix `1 … m`:
the `seen` map holds first occurrences, `total` is the prefix length sum,
and `overlapped` sums exactly the segments whose cell was first seen more
than 12 indices earlier. -/
lemma ovLoop_fold_inv (seq : List Pt) (g : ℝ) (m : ℕ) :
    (∀ k, seenLookup k (((List.range' 1 m).foldl (ovStep seq g) ⟨[], 0, 0⟩).seen)
        = (List.range' 1 m).find? (fun j => segKey seq g j = k)) ∧
    ((List.range' 1 m).foldl (ovStep seq g) ⟨[], 0, 0⟩).total
        = ((List.range' 1 m).map (segLenAt seq)).sum ∧
    ((List.range' 1 m).foldl (ovStep seq g) ⟨[], 0, 0⟩).overlapped
        = (((List.range' 1 m).filter
            (fun i => 13 ≤ i - firstBefore seq g i)).map (segLenAt seq)).sum := by
  induction m with
  | zero => exact ⟨fun k => rfl, rfl, rfl⟩
  | succ m ih =>
    obtain ⟨ihseen, ihtot, ihov⟩ := ih
    have hconcat : List.range' 1 (m + 1) = List.range' 1 m ++ [m + 1] := by
      rw [List.range'_concat]
      simp [Nat.add_comm]
    rw [hconcat]
    rw [List.foldl_append, List.filter_append, List.map_append, List.sum_append,
      List.map_append, List.sum_append]
    set st := (List.range' 1 m).foldl (ovStep seq g) ⟨[], 0, 0⟩ with hst
    have hfb : firstBefore seq g (m + 1)
        = ((List.range' 1 m).find?
            (fun j => segKey seq g j = segKey seq g (m + 1))).getD (m + 1) := by
      unfold firstBefore
      simp
    cases hfind : (List.range' 1 m).find?
        (fun j => segKey seq g j = segKey seq g (m + 1)) with
    | none =>
      have hstep : (List.foldl (ovStep seq g) st [m + 1])
          = { seen := st.seen ++ [(segKey seq g (m + 1), m + 1)],
              overlapped := st.overlapped,
              total := st.total + segLenAt seq (m + 1) } := by
        show ovStep seq g st (m + 1) = _
        unfold ovStep
        rw [ihseen, hfind]
      rw [hstep]
      refine ⟨?_, ?_, ?_⟩
      · intro k
        simp only
        rw [seenLookup_append, ihseen, List.find?_append]
        congr 1
        by_cases hk : segKey seq g (m + 1) = k
        · simp [seenLookup, hk]
        · simp [seenLookup, hk]
      · simp only
        rw [ihtot]
        simp [pathSum]
      · simp only
        have hnot : (decide (13 ≤ m + 1 - firstBefore seq g (m + 1))) = false := by
          rw [hfb, hfind]
          simp
        simp only [List.filter_cons, hnot, List.filter_nil]
        simp [ihov]
    | some j0 =>
      have hfb' : firstBefore seq g (m + 1) = j0 := by rw [hfb, hfind]; rfl
      have hkeep : ∀ k, seenLookup k st.seen
          = (List.range' 1 m ++ [m + 1]).find? (fun j => segKey seq g j = k) := by
        intro k
        rw [List.find?_append, ← ihseen]
        cases hl : seenLookup k st.seen with
        | some v => rfl
        | none =>
          have hne : ¬ (segKey seq g (m + 1) = k) := by
            intro heq
            rw [ihseen] at hl
            rw [heq] at hfind
            rw [hfind] at hl
            exact Option.noConfusion hl
          simp [hne]
      by_cases hflag : 12 < (m + 1) - j0
      · have hstep : (List.foldl (ovStep seq g) st [m + 1])
            = { seen := st.seen,
                overlapped := st.overlapped + segLenAt seq (m + 1),
                total := st.total + segLenAt seq (m + 1) } := by
          show ovStep seq g st (m + 1) = _
          unfold ovStep
          rw [ihseen, hfind]
          simp [hflag]
        rw [hstep]
        refine ⟨?_, ?_, ?_⟩
        · intro k
          simp only
          rw [← hconcat] at hkeep
          rw [hconcat] at hkeep
          exact hkeep k
        · simp only
          rw [ihtot]; simp
        · simp only
          have hyes : (decide (13 ≤ m + 1 - firstBefore seq g (m + 1))) = true := by
            rw [hfb']
            simp
            omega
          simp only [List.filter_cons, hyes]
          simp [ihov]
      · have hstep : (List.foldl (ovStep seq g) st [m + 1])
            = { st with total := st.total + segLenAt seq (m + 1) } := by
          show ovStep seq g st (m + 1) = _
          unfold ovStep
          rw [ihseen, hfind]
          simp [hflag]
        rw [hstep]
        refine ⟨?_, ?_, ?_⟩
        · intro k
          exact hkeep k
        · simp only
          rw [ihtot]; simp
        · simp only
          have hno : (decide (13 ≤ m + 1 - firstBefore seq g (m + 1))) = false := by
            rw [hfb']
            simp
            omega
          simp only [List.filter_cons, hno, List.filter_nil]
          simp [ihov]

lemma firstWithKey_eq_firstBefore (seq : List Pt) (g : ℝ) (i : ℕ)
    (h1 : 1 ≤ i) (h2 : i ≤ seq.length - 1) :
    firstWithKey seq g i = firstBefore seq g i := by
  unfold firstWithKey firstBefore
  have hsplit : List.range' 1 (seq.length - 1)
      = List.range' 1 (i - 1) ++ List.range' i (seq.length - 1 - (i - 1)) := by
    have h := List.range'_append 1 (i - 1) (seq.length - 1 - (i - 1)) 1
    have e1 : 1 + 1 * (i - 1) = i := by omega
    have e2 : seq.length - 1 - (i - 1) + (i - 1) = seq.length - 1 := by omega
    rw [e1] at h
    rw [e2] at h
    exact h.symm
  rw [hsplit, List.find?_append]
  cases hpre : (List.range' 1 (i - 1)).find?
      (fun j => segKey seq g j = segKey seq g i) with
  | some j => rfl
  | none =>
    obtain ⟨n, hn⟩ : ∃ n, seq.length - 1 - (i - 1) = n + 1 :=
      ⟨seq.length - 1 - (i - 1) - 1, by omega⟩
    rw [hn, List.range'_succ, List.find?_cons_of_pos _ (by simp)]
    rfl

/-- The imperative `overlapRatio` equals the declarative formula with
locality threshold 13 (strictly more than 12 indices earlier). -/
lemma overlapRatio_eq_spec (seq : List Pt) (g : ℝ) :
    overlapRatio seq g = overlapRatioSpec 13 seq g := by
  unfold overlapRatio overlapRatioSpec
  by_cases h3 : seq.length < 3
  · rw [if_pos h3, if_pos h3]
  · rw [if_neg h3, if_neg h3]
    obtain ⟨hseen, htot, hov⟩ := ovLoop_fold_inv seq g (seq.length - 1)
    have htot' : (ovLoop seq g).total = totalLenOf seq := htot
    have hov' : (ovLoop seq g).overlapped = overlappedLenOf 13 seq g := by
      rw [show (ovLoop seq g).overlapped = _ from hov]
      unfold overlappedLenOf overlappedIdxs
      congr 2
      apply List.filter_congr
      intro x hx
      have hx' : 1 ≤ x ∧ x < 1 + (seq.length - 1) := by
        have := List.mem_range'_1.mp hx
        omega
      rw [firstWithKey_eq_firstBefore seq g x hx'.1 (by omega)]
    rw [htot', hov']

-- ---------------------------------------------------------------------------
-- `hasShortOutAndBackSpur`: out-and-back spur detector
-- ---------------------------------------------------------------------------

/-- The inner `for j` walk of `hasShortOutAndBackSpur` (constants from the
source: `closeM = 12`, `minSteps = 18`, `maxSteps = 90`).  `detour` is the
distance accumulated so far along the walk from start index `i`. -/
def spurWalk (seq : List Pt) (maxD : ℝ) (A : Pt) (i : ℕ) (j : ℕ) (detour : ℝ) :
    Bool :=
  if h : j < min seq.length (i + 90) then
    if 18 ≤ j - i ∧ havP A (seq.getD j (0, 0)) ≤ 12 ∧
        detour + havP (seq.getD (j - 1) (0, 0)) (seq.getD j (0, 0)) ≤ maxD then
      true
    else if maxD < detour + havP (seq.getD (j - 1) (0, 0)) (seq.getD j (0, 0)) then
      false
    else
      spurWalk seq maxD A i (j + 1)
        (detour + havP (seq.getD (j - 1) (0, 0)) (seq.getD j (0, 0)))
  else false
termination_by min seq.length (i + 90) - j
decreasing_by omega

/-- `function hasShortOutAndBackSpur(coordsLngLat, maxDetourM = 140)` from
the source: `false` below 40 points, else the nested scan. -/
def hasShortOutAndBackSpur (seq : List Pt) (maxD : ℝ) : Bool :=
  if seq.length < 40 then false
  else (List.range (seq.length - (18 + 1))).any
    (fun i => spurWalk seq maxD (seq.getD i (0, 0)) i (i + 1) 0)

/-- Distance accumulated by the walk from start index `i` after reaching
index `j` (sum of the segments `i+1 … j`). -/
def detourSum (seq : List Pt) (i j : ℕ) : ℝ :=
  ∑ k ∈ Finset.Ico (i + 1) (j + 1),
    havP (seq.getD (k - 1) (0, 0)) (seq.getD k (0, 0))

/-- The walk from start index `i` triggers a spur at index `j`. -/
def spurTrigger (seq : List Pt) (maxD : ℝ) (i j : ℕ) : Prop :=
  18 ≤ j - i ∧ havP (seq.getD i (0, 0)) (seq.getD j (0, 0)) ≤ 12 ∧
    detourSum seq i j ≤ maxD

/-- Modelled from the claim's words: some start index anywhere in the
sequence has a later point within the 90-step window that comes back within
12 meters after at least 18 forward steps with accumulated detour at most
`maxD`. -/
def spurWitnessClaim (seq : List Pt) (maxD : ℝ) : Prop :=
  ∃ i j, j < min seq.length (i + 90) ∧ spurTrigger seq maxD i j

/-- The restriction the source loop actually scans: start indices below
`seq.length - 19`. -/
def spurWitnessCode (seq : List Pt) (maxD : ℝ) : Prop :=
  ∃ i, i < seq.length - 19 ∧
    ∃ j, j < min seq.length (i + 90) ∧ spurTrigger seq maxD i j

lemma detourSum_self (seq : List Pt) (i : ℕ) : detourSum seq i i = 0 := by
  unfold detourSum
  simp

lemma detourSum_mono (seq : List Pt) (i : ℕ) {j j' : ℕ} (h : j ≤ j') :
    detourSum seq i j ≤ detourSum seq i j' := by
  unfold detourSum
  apply Finset.sum_le_sum_of_subset_of_nonneg
  · exact Finset.Ico_subset_Ico le_rfl (by omega)
  · intro k _ _
    exact havP_nonneg _ _

lemma detourSum_succ (seq : List Pt) (i j : ℕ) (h : i + 1 ≤ j) :
    detourSum seq i j
      = detourSum seq i (j - 1)
        + havP (seq.getD (j - 1) (0, 0)) (seq.getD j (0, 0)) := by
  have hj : j - 1 + 1 = j := by omega
  unfold detourSum
  rw [hj, Finset.sum_Ico_succ_top h]

/-- Characterization of the inner walk: started at position `j0` with the
detour accumulated so far, it returns true exactly when some index of the
remaining window triggers a spur. -/
lemma spurWalk_iff (seq : List Pt) (maxD : ℝ) (i : ℕ) :
    ∀ (n j0 : ℕ), min seq.length (i + 90) - j0 ≤ n → i < j0 →
      (spurWalk seq maxD (seq.getD i (0, 0)) i j0 (detourSum seq i (j0 - 1)) = true
        ↔ ∃ j, j0 ≤ j ∧ j < min seq.length (i + 90) ∧ spurTrigger seq maxD i j) := by
  intro n
  induction n with
  | zero =>
    intro j0 hn hij
    have hge : min seq.length (i + 90) ≤ j0 := by omega
    rw [spurWalk]
    rw [dif_neg (by omega)]
    constructor
    · intro hfalse
      exact absurd hfalse (by simp)
    · rintro ⟨j, hj0, hjlt, _⟩
      omega
  | succ n ih =>
    intro j0 hn hij
    by_cases hlt : j0 < min seq.length (i + 90)
    · rw [spurWalk, dif_pos hlt]
      have hds : detourSum seq i (j0 - 1)
          + havP (seq.getD (j0 - 1) (0, 0)) (seq.getD j0 (0, 0))
          = detourSum seq i j0 := (detourSum_succ seq i j0 (by omega)).symm
      rw [hds]
      by_cases hc : 18 ≤ j0 - i ∧ havP (seq.getD i (0, 0)) (seq.getD j0 (0, 0)) ≤ 12
          ∧ detourSum seq i j0 ≤ maxD
      · rw [if_pos hc]
        simp only [true_iff]
        exact ⟨j0, le_rfl, hlt, hc⟩
      · rw [if_neg hc]
        by_cases hbreak : maxD < detourSum seq i j0
        · rw [if_pos hbreak]
          constructor
          · intro hfalse
            exact absurd hfalse (by simp)
          · rintro ⟨j, hj0, hjlt, htr⟩
            rcases Nat.eq_or_lt_of_le hj0 with heq | hgt
            · rw [← heq] at htr
              exact absurd htr hc
            · have hmono := detourSum_mono seq i (le_of_lt hgt)
              have := htr.2.2
              linarith
        · rw [if_neg hbreak]
          have hds1 : detourSum seq i j0 = detourSum seq i (j0 + 1 - 1) := by
            norm_num
          rw [hds1]
          rw [ih (j0 + 1) (by omega) (by omega)]
          constructor
          · rintro ⟨j, hj1, hjlt, htr⟩
            exact ⟨j, by omega, hjlt, htr⟩
          · rintro ⟨j, hj0, hjlt, htr⟩
            rcases Nat.eq_or_lt_of_le hj0 with heq | hgt
            · rw [← heq] at htr
              exact absurd htr hc
            · exact ⟨j, by omega, hjlt, htr⟩
    · rw [spurWalk, dif_neg hlt]
      constructor
      · intro hfalse
        exact absurd hfalse (by simp)
      · rintro ⟨j, hj0, hjlt, _⟩
        omega

/-- The spur detector, for sequences of at least 40 points, is exactly the
code-side spur witness (start indices restricted to `< length - 19`). -/
lemma hasSpur_iff (seq : List Pt) (maxD : ℝ) (h40 : ¬ seq.length < 40) :
    hasShortOutAndBackSpur seq maxD = true ↔ spurWitnessCode seq maxD := by
  unfold hasShortOutAndBackSpur spurWitnessCode
  rw [if_neg h40, List.any_eq_true]
  constructor
  · rintro ⟨i, hmem, hwalk⟩
    have hi : i < seq.length - 19 := by
      have := List.mem_range.mp hmem
      omega
    have hiff := spurWalk_iff seq maxD i (min seq.length (i + 90) - (i + 1))
      (i + 1) le_rfl (by omega)
    rw [show i + 1 - 1 = i from rfl, detourSum_self] at hiff
    rw [hiff] at hwalk
    obtain ⟨j, _, hjlt, htr⟩ := hwalk
    exact ⟨i, hi, j, hjlt, htr⟩
  · rintro ⟨i, hi, j, hjlt, htr⟩
    refine ⟨i, List.mem_range.mpr (by omega), ?_⟩
    have hiff := spurWalk_iff seq maxD i (min seq.length (i + 90) - (i + 1))
      (i + 1) le_rfl (by omega)
    rw [show i + 1 - 1 = i from rfl, detourSum_self] at hiff
    rw [hiff]
    have hj1 : i + 1 ≤ j := by
      have := htr.1
      omega
    exact ⟨j, hj1, hjlt, htr⟩

-- ---------------------------------------------------------------------------
-- GeoJSON model, provider contract, concat / anchor helpers
-- ---------------------------------------------------------------------------

/-- Provider failure classification from the two `ors*` wrappers: a 429
response throws the rate-limit error, any other non-ok response throws the
generic request failure. -/
inductive PErr where
  | rateLimited
  | requestFailed
deriving DecidableEq

/-- The parts of a provider GeoJSON payload the server reads:
`features[0].geometry.coordinates`, `features[0].properties.summary.distance`
and `features[0].properties.segments[0].distance`. -/
structure GeoJson where
  coords : List Pt
  summary : Option ℝ
  seg0 : Option ℝ

/-- `getCoords(geojson)`: `features[0].geometry.coordinates || []`. -/
def getCoords (g : GeoJson) : List Pt := g.coords

/-- `makeLineStringGeoJson(coordsLngLat)`: a fresh single-feature LineString
(no provider distance fields). -/
def makeLineStringGeoJson (coords : List Pt) : GeoJson := ⟨coords, none, none⟩

/-- `geojsonToCoordsLngLat(geojson)` from the reroute helpers. -/
def geojsonToCoordsLngLat (g : GeoJson) : List Pt := g.coords

/-- `feat?.properties?.summary?.distance ?? feat?.properties?.segments?.[0]?.distance
?? null`. -/
def distFromOrs (g : GeoJson) : Option ℝ := g.summary.or g.seg0

/-- The body of a round-trip request as sent by `orsRoundTripGeoJson`
(`length` is `Math.round(lengthMeters)`). -/
structure RtReq where
  startLat : ℝ
  startLng : ℝ
  length : ℤ
  points : ℕ
  seed : ℕ

/-- The body of a directions request as sent by `orsDirectionsGeoJson`. -/
structure DirReq where
  coordinates : List Pt
  options : Option (List (List (List Pt)))

/-- `function concatRoutesGeoJson(g1, g2)` from the source. -/
def concatRoutesGeoJson (g1 g2 : GeoJson) : GeoJson :=
  if (getCoords g1).length = 0 then g2
  else if (getCoords g2).length = 0 then g1
  else if |((getCoords g1).getD ((getCoords g1).length - 1) (0, 0)).1
        - ((getCoords g2).getD 0 (0, 0)).1| < 1e-6 ∧
      |((getCoords g1).getD ((getCoords g1).length - 1) (0, 0)).2
        - ((getCoords g2).getD 0 (0, 0)).2| < 1e-6 then
    makeLineStringGeoJson (getCoords g1 ++ (getCoords g2).tail)
  else makeLineStringGeoJson (getCoords g1 ++ getCoords g2)

/-- Result record of `farthestPointFromStart`. -/
structure FarPt where
  lat : ℝ
  lng : ℝ
  d : ℝ

/-- One iteration of the `farthestPointFromStart` loop (`if (d > bestD)`
with `bestD` carried in the record, initialized to `-1`). -/
def farStep (startLat startLng : ℝ) (best : FarPt) (p : Pt) : FarPt :=
  if best.d < haversineM startLat startLng p.2 p.1 then
    ⟨p.2, p.1, haversineM startLat startLng p.2 p.1⟩
  else best

/-- `function farthestPointFromStart(coordsLngLat, startLat, startLng)`. -/
def farthestPointFromStart (coords : List Pt) (startLat startLng : ℝ) :
    Option FarPt :=
  if coords.length < 2 then none
  else some (coords.foldl (farStep startLat startLng) ⟨0, 0, -1⟩)

/-- A caller-supplied waypoint `{lat, lng}`. -/
structure Wp where
  lat : ℝ
  lng : ℝ

/-- `normalizeWaypoints`: the `Number.isFinite` filter and the `Number(...)`
coercions are identities in the real-number model, so this keeps the list. -/
def normalizeWaypoints (ws : List Wp) : List Wp := ws

def metersToDegLat (m : ℝ) : ℝ := m / 111320

def metersToDegLng (m atLat : ℝ) : ℝ := m / (111320 * Real.cos (toRad atLat))

/-- `function makeDetourWaypoint(start, wp, offsetMeters)`; the
`Math.random() < 0.5` side choice is the explicit `sideNeg` parameter. -/
def makeDetourWaypoint (sideNeg : Bool) (start wp : Wp) (offsetMeters : ℝ) : Wp :=
  let avgLat := (start.lat + wp.lat) / 2
  let x := (wp.lng - start.lng) * (111320 * Real.cos (toRad avgLat))
  let y := (wp.lat - start.lat) * 111320
  let len := Real.sqrt (x ^ 2 + y ^ 2)
  if len < 50 then ⟨wp.lat + metersToDegLat offsetMeters, wp.lng⟩
  else
    let side : ℝ := if sideNeg then -1 else 1
    ⟨wp.lat + metersToDegLat (x / len * offsetMeters * side),
     wp.lng + metersToDegLng (-y / len * offsetMeters * side) avgLat⟩

/-- `buildDirectionsCoordinates({startLat, startLng, waypoints})`. -/
def buildDirectionsCoordinates (startLat startLng : ℝ) (waypoints : List Wp) :
    List Pt :=
  [(startLng, startLat)] ++ waypoints.map (fun w => (w.lng, w.lat))
    ++ [(startLng, startLat)]

-- ---------------------------------------------------------------------------
-- Avoidance polygons
-- ---------------------------------------------------------------------------

/-- The local planar length `len = Math.hypot(x, y)` computed inside
`segmentToRectanglePolygon`. -/
def planarLenM (a b : Wp) : ℝ :=
  Real.sqrt (((b.lng - a.lng) * (111320 * Real.cos (toRad ((a.lat + b.lat) / 2)))) ^ 2
    + ((b.lat - a.lat) * 111320) ^ 2)

/-- `function segmentToRectanglePolygon(a, b, halfWidthMeters = 18)`; the
`Number.isFinite(len)` check is vacuous over `ℝ`. -/
def segmentToRectanglePolygon (a b : Wp) (halfWidthMeters : ℝ) :
    Option (List (List Pt)) :=
  if planarLenM a b < 2 then none
  else
    let avgLat := (a.lat + b.lat) / 2
    let x := (b.lng - a.lng) * (111320 * Real.cos (toRad avgLat))
    let y := (b.lat - a.lat) * 111320
    let dLat := metersToDegLat (x / planarLenM a b * halfWidthMeters)
    let dLng := metersToDegLng (-y / planarLenM a b * halfWidthMeters) avgLat
    some [[(a.lng + dLng, a.lat + dLat), (a.lng - dLng, a.lat - dLat),
           (b.lng - dLng, b.lat - dLat), (b.lng + dLng, b.lat + dLat),
           (a.lng + dLng, a.lat + dLat)]]

/-- A blocked segment `{a, b}` from the request body; either endpoint may
be missing. -/
structure BlockedSeg where
  a : Option Wp
  b : Option Wp

/-- `function buildAvoidPolygons(blockedSegments, halfWidthMeters = 18)`. -/
def buildAvoidPolygons (blockedSegments : List BlockedSeg)
    (halfWidthMeters : ℝ) : Option (List (List (List Pt))) :=
  if blockedSegments.length = 0 then none
  else
    if (blockedSegments.filterMap (fun seg =>
        match seg.a, seg.b with
        | some a, some b => segmentToRectanglePolygon a b halfWidthMeters
        | _, _ => none)).length = 0 then none
    else some (blockedSegments.filterMap (fun seg =>
        match seg.a, seg.b with
        | some a, some b => segmentToRectanglePolygon a b halfWidthMeters
        | _, _ => none))

/-- A blocked segment the builder accepts: both endpoints present (and
finite — vacuous over `ℝ`) and planar length at least 2 m. -/
def validBlockedSeg (seg : BlockedSeg) : Prop :=
  ∃ a b, seg.a = some a ∧ seg.b = some b ∧ ¬ planarLenM a b < 2

/-- `function sampleCoordsEvenly(coordsLngLat, n)`. -/
def sampleCoordsEvenly (coords : List Pt) (n : ℕ) : List Pt :=
  if coords.length = 0 then []
  else if n = 0 then []
  else if coords.length ≤ n then coords
  else (List.range n).map (fun i =>
    coords.getD ((jsRound ((i : ℝ) / ((n : ℝ) - 1)
      * ((coords.length : ℝ) - 1))).toNat) (0, 0))

-- ---------------------------------------------------------------------------
-- Round-trip search (`generateLoopGeoJson`)
-- ---------------------------------------------------------------------------

/-- A search candidate as assembled inside `generateLoopGeoJson`. -/
structure Candidate where
  geojson : GeoJson
  distM : ℝ
  targetM : ℝ
  overlap : ℝ
  distError : ℝ
  attemptsTried : ℕ
  score : ℝ

/-- The candidate record built at attempt `a` (0-based), with
`score = distError` as in the source. -/
def mkCandidate (g : GeoJson) (distM targetM : ℝ) (a : ℕ) : Candidate :=
  ⟨g, distM, targetM, overlapRatio (getCoords g) 20, |distM - targetM| / targetM,
   a + 1, |distM - targetM| / targetM⟩

/-- `if (!best || candidate.score < best.score) best = candidate`. -/
def pickBest (best : Option Candidate) (c : Candidate) : Option Candidate :=
  match best with
  | none => some c
  | some b => if c.score < b.score then some c else some b

/-- The round-trip request issued at attempt `a` of the loop search:
fresh seed from the stream, `points` alternating 6/8 by attempt parity. -/
def genLoopReq (lat lng targetM : ℝ) (seeds : ℕ → ℕ) (a : ℕ) : RtReq :=
  ⟨lat, lng, jsRound targetM, if a % 2 = 0 then 6 else 8, seeds a⟩

/-- Attempt budget of `generateLoopGeoJson`. -/
def loopAttempts : ℕ := 10

/-- The `for (let a = 0; a < attempts; a++)` loop of `generateLoopGeoJson`:
`a` is the attempt index, the second argument the remaining fuel.  The
provider call is `await`ed with no surrounding try/catch, so a provider
error ends the whole search via the `Except` error branch. -/
def genLoopAux (rt : RtReq → Except PErr GeoJson) (seeds : ℕ → ℕ)
    (lat lng targetM : ℝ) (avoidSpurs : Bool) :
    ℕ → ℕ → Option Candidate → Except PErr (Option Candidate)
  | _, 0, best => .ok best
  | a, fuel + 1, best =>
    match rt (genLoopReq lat lng targetM seeds a) with
    | .error e => .error e
    | .ok geojson =>
      if (getCoords geojson).length < 2 then
        genLoopAux rt seeds lat lng targetM avoidSpurs (a + 1) fuel best
      else
        match (distFromOrs geojson).or (lineDistanceM (getCoords geojson)) with
        | none => genLoopAux rt seeds lat lng targetM avoidSpurs (a + 1) fuel best
        | some distM =>
          if distM ≤ 0 then
            genLoopAux rt seeds lat lng targetM avoidSpurs (a + 1) fuel best
          else if avoidSpurs && hasShortOutAndBackSpur (getCoords geojson) 160 then
            genLoopAux rt seeds lat lng targetM avoidSpurs (a + 1) fuel best
          else if (mkCandidate geojson distM targetM a).distError ≤ 0.03 then
            .ok (pickBest best (mkCandidate geojson distM targetM a))
          else
            genLoopAux rt seeds lat lng targetM avoidSpurs (a + 1) fuel
              (pickBest best (mkCandidate geojson distM targetM a))

/-- `async function generateLoopGeoJson({lat, lng, distanceKm, apiKey,
avoidSpurs = true})` with the provider transport and seed stream passed
explicitly. -/
def generateLoopGeoJson (rt : RtReq → Except PErr GeoJson) (seeds : ℕ → ℕ)
    (lat lng distanceKm : ℝ) (avoidSpurs : Bool) : Except PErr (Option Candidate) :=
  genLoopAux rt seeds lat lng (distanceKm * 1000) avoidSpurs 0 loopAttempts none

-- ---------------------------------------------------------------------------
-- Filler search (`bestFillerRoundTrip`)
-- ---------------------------------------------------------------------------

/-- A filler candidate `{geojson, score}`. -/
structure FillerCand where
  geojson : GeoJson
  score : ℝ

/-- `if (!best || cand.score < best.score) best = cand`. -/
def pickBestF (best : Option FillerCand) (c : FillerCand) : Option FillerCand :=
  match best with
  | none => some c
  | some b => if c.score < b.score then some c else some b

/-- The filler scoring rule `ov * 1.0 + distErr * 0.2`. -/
def fillerScore (coords : List Pt) (dist lengthM : ℝ) : ℝ :=
  overlapRatio coords 20 * 1.0 + |dist - lengthM| / lengthM * 0.2

/-- The round-trip request issued at filler attempt `i`. -/
def fillerReq (sLat sLng lengthM : ℝ) (seeds : ℕ → ℕ) (i : ℕ) : RtReq :=
  ⟨sLat, sLng, jsRound lengthM, if i % 2 = 0 then 6 else 8, seeds i⟩

/-- The `for (let i = 0; i < attempts; i++)` loop of `bestFillerRoundTrip`. -/
def bestFillerAux (rt : RtReq → Except PErr GeoJson) (seeds : ℕ → ℕ)
    (sLat sLng lengthM : ℝ) :
    ℕ → ℕ → Option FillerCand → Except PErr (Option FillerCand)
  | _, 0, best => .ok best
  | i, fuel + 1, best =>
    match rt (fillerReq sLat sLng lengthM seeds i) with
    | .error e => .error e
    | .ok g =>
      if (getCoords g).length < 2 then
        bestFillerAux rt seeds sLat sLng lengthM (i + 1) fuel best
      else
        match lineDistanceM (getCoords g) with
        | none => bestFillerAux rt seeds sLat sLng lengthM (i + 1) fuel best
        | some dist =>
          if dist = 0 then
            bestFillerAux rt seeds sLat sLng lengthM (i + 1) fuel best
          else if hasShortOutAndBackSpur (getCoords g) 160 then
            bestFillerAux rt seeds sLat sLng lengthM (i + 1) fuel best
          else
            bestFillerAux rt seeds sLat sLng lengthM (i + 1) fuel
              (pickBestF best ⟨g, fillerScore (getCoords g) dist lengthM⟩)

/-- `async function bestFillerRoundTrip({apiKey, startLat, startLng,
lengthMeters, attempts = 8})`, returning `best?.geojson || null`. -/
def bestFillerRoundTrip (rt : RtReq → Except PErr GeoJson) (seeds : ℕ → ℕ)
    (sLat sLng lengthM : ℝ) (attempts : ℕ) : Except PErr (Option GeoJson) :=
  (bestFillerAux rt seeds sLat sLng lengthM 0 attempts none).map
    (fun b => b.map FillerCand.geojson)

/-- The outcome of filler attempt `i` in isolation: `none` when the attempt
is skipped (provider failure modelled apart), otherwise the candidate that
the loop body would build. -/
def fillerCandAt (rt : RtReq → Except PErr GeoJson) (seeds : ℕ → ℕ)
    (sLat sLng lengthM : ℝ) (i : ℕ) : Option FillerCand :=
  match rt (fillerReq sLat sLng lengthM seeds i) with
  | .error _ => none
  | .ok g =>
    if (getCoords g).length < 2 then none
    else
      match lineDistanceM (getCoords g) with
      | none => none
      | some dist =>
        if dist = 0 then none
        else if hasShortOutAndBackSpur (getCoords g) 160 then none
        else some ⟨g, fillerScore (getCoords g) dist lengthM⟩

-- ---------------------------------------------------------------------------
-- `/api/loop` endpoint model
-- ---------------------------------------------------------------------------

/-- JS falsiness of a numeric request-body field: absent (`undefined`/`null`)
or exactly `0` (NaN has no counterpart over `ℝ`). -/
def jsFalsyNum (o : Option ℝ) : Bool :=
  match o with
  | none => true
  | some x => if x = 0 then true else false

/-- Responses of `POST /api/loop` as distinguished by the handler. -/
inductive LoopResp where
  | missingInput
  | genFailed
  | success (targetM : ℝ) (distM : Option ℝ) (overlap : ℝ)
      (distError : Option ℝ) (attemptsTried : ℕ) (geojson : GeoJson)
  | caught (e : PErr)

/-- Anchor selection of the too-short patch step: the farthest point when
it is at least 600 m away, else the first waypoint, else the start. -/
def anchorFor (coordsLngLat : List Pt) (startLat startLng : ℝ)
    (wps2 : List Wp) : ℝ × ℝ :=
  match farthestPointFromStart coordsLngLat startLat startLng with
  | some a =>
    if 600 ≤ a.d then (a.lat, a.lng)
    else
      match wps2.head? with
      | some w => (w.lat, w.lng)
      | none => (startLat, startLng)
  | none =>
    match wps2.head? with
    | some w => (w.lat, w.lng)
    | none => (startLat, startLng)

/-- The `if (distM != null && distM < targetM)` filler-patch step of the
waypoint branch of `POST /api/loop` (lines building `fillerM`, the anchor,
the `bestFillerRoundTrip(…, attempts: 14)` call and the concatenation),
returning the possibly patched geojson, its coordinates and its length. -/
def patchIfShort (rt : RtReq → Except PErr GeoJson) (seeds : ℕ → ℕ)
    (startLat startLng targetM : ℝ) (wps2 : List Wp) (gj : GeoJson) :
    Except PErr (GeoJson × List Pt × Option ℝ) :=
  match lineDistanceM (getCoords gj) with
  | none => .ok (gj, getCoords gj, none)
  | some d =>
    if d < targetM then
      match bestFillerRoundTrip rt seeds
          (anchorFor (getCoords gj) startLat startLng wps2).1
          (anchorFor (getCoords gj) startLat startLng wps2).2
          (max 1600 ((jsRound (targetM - d) : ℤ) : ℝ)) 14 with
      | .error e => .error e
      | .ok none => .ok (gj, getCoords gj, some d)
      | .ok (some filler) =>
        .ok (concatRoutesGeoJson gj filler,
             getCoords (concatRoutesGeoJson gj filler),
             lineDistanceM (getCoords (concatRoutesGeoJson gj filler)))
    else .ok (gj, getCoords gj, some d)

/-- `const distError = distM ? Math.abs(distM - targetM) / targetM : null`
(JS falsiness: null for an absent or zero distance). -/
def loopDistError (dist2 : Option ℝ) (targetM : ℝ) : Option ℝ :=
  match dist2 with
  | none => none
  | some d => if d = 0 then none else some (|d - targetM| / targetM)

/-- The tail of the waypoint branch of `/api/loop`: handle the directions
response, run the too-short patch step, and assemble the final metrics. -/
def apiLoopWpFinish (rt : RtReq → Except PErr GeoJson) (seeds : ℕ → ℕ)
    (startLat startLng targetM : ℝ) (wps2 : List Wp)
    (dres : Except PErr GeoJson) : LoopResp :=
  match dres with
  | .error e => .caught e
  | .ok gj =>
    match patchIfShort rt seeds startLat startLng targetM wps2 gj with
    | .error e => .caught e
    | .ok (gj2, coords2, dist2) =>
      .success targetM dist2 (overlapRatio coords2 20) (loopDistError dist2 targetM)
        1 gj2

/-- `app.post("/api/loop", …)`: guard, zero-waypoint round-trip branch,
waypoint branch with detour synthesis and filler patching; thrown provider
errors reach the `catch` block (`caught`). -/
def apiLoop (rt : RtReq → Except PErr GeoJson) (dirs : DirReq → Except PErr GeoJson)
    (seeds : ℕ → ℕ) (sideNeg : Bool) (lat lng distanceKm : Option ℝ)
    (avoidSpurs : Option Bool) (waypoints : List Wp) : LoopResp :=
  if jsFalsyNum lat || jsFalsyNum lng || jsFalsyNum distanceKm then .missingInput
  else if (normalizeWaypoints waypoints).length = 0 then
    match generateLoopGeoJson rt seeds (lat.getD 0) (lng.getD 0)
        (distanceKm.getD 0) (decide (avoidSpurs ≠ some false)) with
    | .error e => .caught e
    | .ok none => .genFailed
    | .ok (some r) =>
      .success r.targetM (some r.distM) r.overlap (some r.distError)
        r.attemptsTried r.geojson
  else
    apiLoopWpFinish rt seeds (lat.getD 0) (lng.getD 0) (distanceKm.getD 0 * 1000)
      (if (normalizeWaypoints waypoints).length = 1 then
        [(normalizeWaypoints waypoints).headD ⟨0, 0⟩,
         makeDetourWaypoint sideNeg ⟨lat.getD 0, lng.getD 0⟩
           ((normalizeWaypoints waypoints).headD ⟨0, 0⟩)
           (max 250 (min 900 (distanceKm.getD 0 * 1000 * 0.08)))]
       else normalizeWaypoints waypoints)
      (dirs ⟨buildDirectionsCoordinates (lat.getD 0) (lng.getD 0)
        (if (normalizeWaypoints waypoints).length = 1 then
          [(normalizeWaypoints waypoints).headD ⟨0, 0⟩,
           makeDetourWaypoint sideNeg ⟨lat.getD 0, lng.getD 0⟩
             ((normalizeWaypoints waypoints).headD ⟨0, 0⟩)
             (max 250 (min 900 (distanceKm.getD 0 * 1000 * 0.08)))]
         else normalizeWaypoints waypoints), none⟩)

-- ---------------------------------------------------------------------------
-- `/api/reroute` endpoint model
-- ---------------------------------------------------------------------------

/-- Responses of `POST /api/reroute` as distinguished by the handler. -/
inductive RerouteResp where
  | missingInput
  | noValidSegments
  | success (distM : Option ℝ) (overlap : ℝ) (attemptsTried : ℕ) (geojson : GeoJson)
  | caught (e : PErr)

/-- `app.post("/api/reroute", …)`: guard, avoidance-polygon construction
(short-circuiting before the provider is consulted), shape-point sampling,
constrained directions request and final metrics. -/
def apiReroute (dirs : DirReq → Except PErr GeoJson)
    (lat lng distanceKm : Option ℝ) (routeGeo : Option GeoJson)
    (waypoints : List Wp) (blockedSegments : List BlockedSeg) : RerouteResp :=
  if jsFalsyNum lat || jsFalsyNum lng || jsFalsyNum distanceKm
      || routeGeo.isNone then .missingInput
  else
    match buildAvoidPolygons blockedSegments 18 with
    | none => .noValidSegments
    | some avoidPolys =>
      match dirs ⟨[(lng.getD 0, lat.getD 0)] ++
          ((sampleCoordsEvenly
            (geojsonToCoordsLngLat (routeGeo.getD ⟨[], none, none⟩)) 7).drop 1).dropLast ++
          (normalizeWaypoints waypoints).map (fun w => (w.lng, w.lat)) ++
          [(lng.getD 0, lat.getD 0)], some avoidPolys⟩ with
      | .error e => .caught e
      | .ok gj =>
        .success ((distFromOrs gj).or (lineDistanceM (getCoords gj)))
          (overlapRatio (getCoords gj) 20) 1 gj

-- ---------------------------------------------------------------------------
-- Claim theorems
-- ---------------------------------------------------------------------------

/-- Claim C8 (code bug): the claim says `haversineM` never returns NaN
because the inner asin argument is clamped to `[0, 1]`, but the source
`haversineM` (lines 23-35) contains no clamp. The spec-modelled
`haversineMClamped` has every claimed output property: it is non-negative,
it is 0 on identical points, and its clamped argument lies in `[0, 1]` for
EVERY real value, overshoots included. The unclamped source function
coincides with it only through the exact-real bound `haversineA ≤ 1`, and
that bound is tight: `haversineA` equals exactly 1 on every antipodal
configuration (such as the failing input, lat2 = -lat1 and
lon2 = lon1 + 180), so the double-precision value 1 + 2^(-51) actually
computed there lies outside the safe range — which the mandated clamp
would map back to 1, while the source feeds it to asin and gets NaN. -/
theorem claim_C8 :
    (∀ lat1 lon1 lat2 lon2 : ℝ, 0 ≤ haversineMClamped lat1 lon1 lat2 lon2) ∧
    (∀ lat lon : ℝ, haversineMClamped lat lon lat lon = 0) ∧
    (∀ x : ℝ, 0 ≤ jsClamp01 x ∧ jsClamp01 x ≤ 1) ∧
    (∀ lat1 lon1 lat2 lon2 : ℝ,
      haversineMClamped lat1 lon1 lat2 lon2 = haversineM lat1 lon1 lat2 lon2) ∧
    (∀ lat lon : ℝ, haversineA lat lon (-lat) (lon + 180) = 1) ∧
    (¬ ((1 : ℝ) + 1 / 2 ^ 51 ≤ 1) ∧ jsClamp01 ((1 : ℝ) + 1 / 2 ^ 51) = 1) :=
  ⟨haversineMClamped_nonneg, haversineMClamped_self, jsClamp01_mem,
   haversineMClamped_eq, haversineA_antipode,
   ⟨by norm_num, jsClamp01_overshoot⟩⟩

/-- Claim C6: the total path length is invariant under reversing the
coordinate sequence (stated for every sequence: both sides are `null` below
2 points), and the per-pair haversine distance is symmetric. -/
theorem claim_C6 :
    (∀ coords : List Pt, lineDistanceM coords.reverse = lineDistanceM coords) ∧
    (∀ lat1 lon1 lat2 lon2 : ℝ,
      haversineM lat1 lon1 lat2 lon2 = haversineM lat2 lon2 lat1 lon1) :=
  ⟨lineDistanceM_reverse, haversineM_comm⟩

/-- Claim C10: a loop or reroute request whose start latitude, start
longitude, or target distance is exactly 0 is rejected by the falsiness
guard as missing input, for every provider and remaining payload — so the
search/reroute never starts for such requests. -/
theorem claim_C10 :
    (∀ rt dirs seeds sideNeg lng dkm av w,
      apiLoop rt dirs seeds sideNeg (some 0) lng dkm av w = .missingInput) ∧
    (∀ rt dirs seeds sideNeg lat dkm av w,
      apiLoop rt dirs seeds sideNeg lat (some 0) dkm av w = .missingInput) ∧
    (∀ rt dirs seeds sideNeg lat lng av w,
      apiLoop rt dirs seeds sideNeg lat lng (some 0) av w = .missingInput) ∧
    (∀ dirs lng dkm rg w bs,
      apiReroute dirs (some 0) lng dkm rg w bs = .missingInput) ∧
    (∀ dirs lat dkm rg w bs,
      apiReroute dirs lat (some 0) dkm rg w bs = .missingInput) ∧
    (∀ dirs lat lng rg w bs,
      apiReroute dirs lat lng (some 0) rg w bs = .missingInput) := by
  refine ⟨?_, ?_, ?_, ?_, ?_, ?_⟩
  all_goals
    intros
    simp [apiLoop, apiReroute, jsFalsyNum]

lemma perSegPolygon_eq_none_iff (seg : BlockedSeg) (h : ℝ) :
    (match seg.a, seg.b with
      | some a, some b => segmentToRectanglePolygon a b h
      | _, _ => none) = none ↔ ¬ validBlockedSeg seg := by
  obtain ⟨sa, sb⟩ := seg
  cases sa with
  | none =>
    constructor
    · intro _
      rintro ⟨a, b, ha, _, _⟩
      exact Option.noConfusion ha
    · intro _
      rfl
  | some a =>
    cases sb with
    | none =>
      constructor
      · intro _
        rintro ⟨a', b', _, hb, _⟩
        exact Option.noConfusion hb
      · intro _
        rfl
    | some b =>
      show segmentToRectanglePolygon a b h = none ↔ _
      unfold segmentToRectanglePolygon
      by_cases hlen : planarLenM a b < 2
      · rw [if_pos hlen]
        constructor
        · intro _
          rintro ⟨a', b', ha, hb, hge⟩
          cases Option.some.inj ha
          cases Option.some.inj hb
          exact hge hlen
        · intro _
          rfl
      · rw [if_neg hlen]
        constructor
        · intro hsome
          exact Option.noConfusion hsome
        · intro hnv
          exact absurd ⟨a, b, rfl, rfl, hlen⟩ hnv

/-- Claim C9: `buildAvoidPolygons` returns null exactly when no supplied
blocked segment is valid (endpoint missing — non-finiteness is vacuous over
`ℝ` — or local planar length below 2 m), and in that case the reroute
handler answers with the no-valid-segments error for every directions
provider, i.e. before any network call is issued. -/
theorem claim_C9 :
    (∀ bs : List BlockedSeg,
      buildAvoidPolygons bs 18 = none ↔ ∀ seg ∈ bs, ¬ validBlockedSeg seg) ∧
    (∀ (bs : List BlockedSeg) (dirs : DirReq → Except PErr GeoJson)
        (lat lng dkm : Option ℝ) (rg : Option GeoJson) (w : List Wp),
      (∀ seg ∈ bs, ¬ validBlockedSeg seg) →
      jsFalsyNum lat = false → jsFalsyNum lng = false → jsFalsyNum dkm = false →
      rg.isNone = false →
      apiReroute dirs lat lng dkm rg w bs = .noValidSegments) := by
  have hmain : ∀ bs : List BlockedSeg,
      buildAvoidPolygons bs 18 = none ↔ ∀ seg ∈ bs, ¬ validBlockedSeg seg := by
    intro bs
    unfold buildAvoidPolygons
    by_cases hnil : bs.length = 0
    · rw [if_pos hnil]
      have hbs : bs = [] := List.length_eq_zero.mp hnil
      subst hbs
      simp
    · rw [if_neg hnil]
      by_cases hfm : (bs.filterMap (fun seg =>
          match seg.a, seg.b with
          | some a, some b => segmentToRectanglePolygon a b 18
          | _, _ => none)).length = 0
      · rw [if_pos hfm]
        have hfm' := List.length_eq_zero.mp hfm
        constructor
        · intro _ seg hseg
          have := (List.filterMap_eq_nil.mp hfm') seg hseg
          exact (perSegPolygon_eq_none_iff seg 18).mp this
        · intro _
          rfl
      · rw [if_neg hfm]
        constructor
        · intro hsome
          exact Option.noConfusion hsome
        · intro hall
          have : (bs.filterMap (fun seg =>
              match seg.a, seg.b with
              | some a, some b => segmentToRectanglePolygon a b 18
              | _, _ => none)) = [] :=
            List.filterMap_eq_nil.mpr
              (fun seg hseg => (perSegPolygon_eq_none_iff seg 18).mpr (hall seg hseg))
          rw [this] at hfm
          exact absurd rfl hfm
  refine ⟨hmain, ?_⟩
  intro bs dirs lat lng dkm rg w hall hlat hlng hdkm hrg
  unfold apiReroute
  rw [hlat, hlng, hdkm, hrg, (hmain bs).mpr hall]
  simp

/-- Witness for C9 at a concrete degenerate blocked segment (identical
endpoints, planar length 0). -/
theorem claim_C9_witness :
    apiReroute (fun _ => .ok ⟨[], none, none⟩) (some 1) (some 1) (some 1)
      (some ⟨[], none, none⟩) [] [⟨some ⟨0, 0⟩, some ⟨0, 0⟩⟩] = .noValidSegments := by
  apply claim_C9.2
  · intro seg hseg
    have hseg' : seg = ⟨some ⟨0, 0⟩, some ⟨0, 0⟩⟩ := by
      simpa using hseg
    subst hseg'
    rintro ⟨a, b, ha, hb, hge⟩
    cases Option.some.inj ha
    cases Option.some.inj hb
    apply hge
    unfold planarLenM
    norm_num
  · simp [jsFalsyNum]
  · simp [jsFalsyNum]
  · simp [jsFalsyNum]
  · rfl

-- ---------------------------------------------------------------------------
-- C1: error handling of the round-trip search loop
-- ---------------------------------------------------------------------------

/-- Attempt `a` of the loop search is skipped by one of the `continue`
guards: the provider call succeeds but yields fewer than 2 coordinates, a
missing or non-positive distance, or (with spur avoidance on) a flagged
spur. -/
def attemptSkipped (rt : RtReq → Except PErr GeoJson) (seeds : ℕ → ℕ)
    (lat lng targetM : ℝ) (avoidSpurs : Bool) (a : ℕ) : Prop :=
  ∃ g, rt (genLoopReq lat lng targetM seeds a) = .ok g ∧
    ((getCoords g).length < 2 ∨
     (distFromOrs g).or (lineDistanceM (getCoords g)) = none ∨
     (∃ d, (distFromOrs g).or (lineDistanceM (getCoords g)) = some d ∧ d ≤ 0) ∨
     (avoidSpurs = true ∧ hasShortOutAndBackSpur (getCoords g) 160 = true))

lemma genLoopAux_skip_one (rt : RtReq → Except PErr GeoJson) (seeds : ℕ → ℕ)
    (lat lng targetM : ℝ) (av : Bool) (a fuel : ℕ) (best : Option Candidate)
    (h : attemptSkipped rt seeds lat lng targetM av a) :
    genLoopAux rt seeds lat lng targetM av a (fuel + 1) best
      = genLoopAux rt seeds lat lng targetM av (a + 1) fuel best := by
  obtain ⟨g, hg, hcase⟩ := h
  simp only [genLoopAux]
  rw [hg]
  by_cases hlen : (getCoords g).length < 2
  · simp only [if_pos hlen]
  · simp only [if_neg hlen]
    rcases hcase with hc | hc | hc | hc
    · exact absurd hc hlen
    · rw [hc]
    · obtain ⟨d, hd, hd0⟩ := hc
      rw [hd]
      simp only [if_pos hd0]
    · cases hdist : (distFromOrs g).or (lineDistanceM (getCoords g)) with
      | none => rfl
      | some d =>
        by_cases hd0 : d ≤ 0
        · simp only [if_pos hd0]
        · simp only [if_neg hd0]
          have hb : (av && hasShortOutAndBackSpur (getCoords g) 160) = true := by
            rw [hc.1, hc.2]
            rfl
          rw [hb]
          simp

lemma genLoopAux_all_skipped (rt : RtReq → Except PErr GeoJson) (seeds : ℕ → ℕ)
    (lat lng targetM : ℝ) (av : Bool) :
    ∀ (fuel a : ℕ) (best : Option Candidate),
      (∀ k, k < fuel → attemptSkipped rt seeds lat lng targetM av (a + k)) →
      genLoopAux rt seeds lat lng targetM av a fuel best = .ok best := by
  intro fuel
  induction fuel with
  | zero => intro a best _; rfl
  | succ fuel ih =>
    intro a best h
    rw [genLoopAux_skip_one rt seeds lat lng targetM av a fuel best
      (by simpa using h 0 (by omega))]
    exact ih (a + 1) best (fun k hk => by
      have := h (k + 1) (by omega)
      simpa [Nat.add_assoc, Nat.add_comm 1 k] using this)

lemma genLoopAux_propagates (rt : RtReq → Except PErr GeoJson) (seeds : ℕ → ℕ)
    (lat lng targetM : ℝ) (av : Bool) :
    ∀ (j fuel a : ℕ) (best : Option Candidate) (e : PErr),
      j < fuel →
      (∀ k, k < j → attemptSkipped rt seeds lat lng targetM av (a + k)) →
      rt (genLoopReq lat lng targetM seeds (a + j)) = .error e →
      genLoopAux rt seeds lat lng targetM av a fuel best = .error e := by
  intro j
  induction j with
  | zero =>
    intro fuel a best e hj _ herr
    obtain ⟨fuel', rfl⟩ : ∃ fuel', fuel = fuel' + 1 := ⟨fuel - 1, by omega⟩
    simp only [genLoopAux]
    rw [show a + 0 = a from rfl] at herr
    rw [herr]
  | succ j ih =>
    intro fuel a best e hj hskip herr
    obtain ⟨fuel', rfl⟩ : ∃ fuel', fuel = fuel' + 1 := ⟨fuel - 1, by omega⟩
    rw [genLoopAux_skip_one rt seeds lat lng targetM av a fuel' best
      (by simpa using hskip 0 (by omega))]
    refine ih fuel' (a + 1) best e (by omega) (fun k hk => ?_) ?_
    · have := hskip (k + 1) (by omega)
      simpa [Nat.add_assoc, Nat.add_comm 1 k] using this
    · have : a + 1 + j = a + (j + 1) := by omega
      rw [this]
      exact herr

/-- Claim C1 (amended): inside `generateLoopGeoJson` only the data-validity
failures (fewer than 2 coordinates, missing/non-positive distance, flagged
spur) are absorbed and advance the loop — exhausting the budget on such
attempts returns null; a provider exception, `RateLimited` included, is not
absorbed: the first one reached propagates out of the search to the caller. -/
theorem claim_C1 :
    (∀ (rt : RtReq → Except PErr GeoJson) (seeds : ℕ → ℕ) (lat lng dkm : ℝ)
        (av : Bool),
      (∀ k, k < loopAttempts → attemptSkipped rt seeds lat lng (dkm * 1000) av k) →
      generateLoopGeoJson rt seeds lat lng dkm av = .ok none) ∧
    (∀ (rt : RtReq → Except PErr GeoJson) (seeds : ℕ → ℕ) (lat lng dkm : ℝ)
        (av : Bool) (e : PErr) (j : ℕ),
      j < loopAttempts →
      (∀ k, k < j → attemptSkipped rt seeds lat lng (dkm * 1000) av k) →
      rt (genLoopReq lat lng (dkm * 1000) seeds j) = .error e →
      generateLoopGeoJson rt seeds lat lng dkm av = .error e) := by
  constructor
  · intro rt seeds lat lng dkm av h
    unfold generateLoopGeoJson
    exact genLoopAux_all_skipped rt seeds lat lng (dkm * 1000) av loopAttempts 0 none
      (fun k hk => by simpa using h k hk)
  · intro rt seeds lat lng dkm av e j hj hskip herr
    unfold generateLoopGeoJson
    exact genLoopAux_propagates rt seeds lat lng (dkm * 1000) av j loopAttempts 0 none e
      hj (fun k hk => by simpa using hskip k hk) (by simpa using herr)

/-- Counterexample to C1 as stated: with a provider that signals
`RateLimited` on every call, the search does not exhaust its budget and
return null — it propagates the exception on the first attempt. -/
theorem counterexample_C1 :
    generateLoopGeoJson (fun _ => .error .rateLimited) (fun _ => 0) 52 4 5 true
      = .error .rateLimited ∧
    generateLoopGeoJson (fun _ => .error .rateLimited) (fun _ => 0) 52 4 5 true
      ≠ .ok none := by
  constructor
  · rfl
  · intro h
    exact Except.noConfusion (h.symm.trans rfl)

/-- Witness for C1 at concrete inputs: a provider always returning an empty
coordinate list exhausts the budget and yields null, and a provider that
fails at attempt 0 propagates that failure. -/
theorem claim_C1_witness :
    generateLoopGeoJson (fun _ => .ok ⟨[], none, none⟩) (fun _ => 0) 1 1 1 true
      = .ok none ∧
    generateLoopGeoJson (fun _ => .error .requestFailed) (fun _ => 0) 1 1 1 true
      = .error .requestFailed := by
  constructor
  · exact claim_C1.1 (fun _ => .ok ⟨[], none, none⟩) (fun _ => 0) 1 1 1 true
      (fun k _ => ⟨⟨[], none, none⟩, rfl, Or.inl (by simp [getCoords])⟩)
  · exact claim_C1.2 (fun _ => .error .requestFailed) (fun _ => 0) 1 1 1 true
      .requestFailed 0 (by norm_num [loopAttempts]) (fun k hk => absurd hk (by omega)) rfl

-- ---------------------------------------------------------------------------
-- C5: early exit of the round-trip search
-- ---------------------------------------------------------------------------

lemma genLoopAux_early_exit (rt : RtReq → Except PErr GeoJson) (seeds : ℕ → ℕ)
    (lat lng targetM : ℝ) (av : Bool) (a fuel : ℕ) (best : Option Candidate)
    (g : GeoJson) (distM : ℝ)
    (hg : rt (genLoopReq lat lng targetM seeds a) = .ok g)
    (hlen : ¬ (getCoords g).length < 2)
    (hdist : (distFromOrs g).or (lineDistanceM (getCoords g)) = some distM)
    (hd0 : ¬ distM ≤ 0)
    (hspur : ¬ (av = true ∧ hasShortOutAndBackSpur (getCoords g) 160 = true))
    (herr : |distM - targetM| / targetM ≤ 0.03)
    (hbest : ∀ b, best = some b → 0.03 < b.score) :
    genLoopAux rt seeds lat lng targetM av a (fuel + 1) best
      = .ok (some (mkCandidate g distM targetM a)) := by
  simp only [genLoopAux]
  rw [hg]
  simp only [if_neg hlen]
  rw [hdist]
  simp only [if_neg hd0]
  have hb : (av && hasShortOutAndBackSpur (getCoords g) 160) = false := by
    cases hav : av with
    | false => rfl
    | true =>
      cases hsp : hasShortOutAndBackSpur (getCoords g) 160 with
      | false => rfl
      | true => exact absurd ⟨hav, hsp⟩ hspur
  rw [hb]
  have herr' : (mkCandidate g distM targetM a).distError ≤ 0.03 := herr
  simp only [Bool.false_eq_true, if_false, if_pos herr']
  cases hbst : best with
  | none => rfl
  | some b =>
    have hlt : (mkCandidate g distM targetM a).score < b.score := by
      have h1 : (mkCandidate g distM targetM a).score = |distM - targetM| / targetM := rfl
      have h2 := hbest b hbst
      rw [h1]
      linarith
    show Except.ok (pickBest (some b) (mkCandidate g distM targetM a)) = _
    simp [pickBest, hlt]

/-- Claim C5: as soon as an attempt yields a valid candidate whose relative
distance error is at most 0.03 (and every candidate carried so far scores
above 0.03, which holds on any reached attempt), the search returns that
very candidate immediately without consuming further attempts; in
particular a provider whose first attempt reports exactly the target length
with a spur-free path makes `generateLoopGeoJson` return on attempt 1 with
`attemptsTried = 1`. -/
theorem claim_C5 :
    (∀ (rt : RtReq → Except PErr GeoJson) (seeds : ℕ → ℕ)
        (lat lng targetM : ℝ) (av : Bool) (a fuel : ℕ) (best : Option Candidate)
        (g : GeoJson) (distM : ℝ),
      rt (genLoopReq lat lng targetM seeds a) = .ok g →
      ¬ (getCoords g).length < 2 →
      (distFromOrs g).or (lineDistanceM (getCoords g)) = some distM →
      ¬ distM ≤ 0 →
      ¬ (av = true ∧ hasShortOutAndBackSpur (getCoords g) 160 = true) →
      |distM - targetM| / targetM ≤ 0.03 →
      (∀ b, best = some b → 0.03 < b.score) →
      genLoopAux rt seeds lat lng targetM av a (fuel + 1) best
        = .ok (some (mkCandidate g distM targetM a))) ∧
    (∀ (rt : RtReq → Except PErr GeoJson) (seeds : ℕ → ℕ)
        (lat lng dkm : ℝ) (av : Bool) (g : GeoJson),
      rt (genLoopReq lat lng (dkm * 1000) seeds 0) = .ok g →
      ¬ (getCoords g).length < 2 →
      (distFromOrs g).or (lineDistanceM (getCoords g)) = some (dkm * 1000) →
      0 < dkm * 1000 →
      ¬ (av = true ∧ hasShortOutAndBackSpur (getCoords g) 160 = true) →
      generateLoopGeoJson rt seeds lat lng dkm av
          = .ok (some (mkCandidate g (dkm * 1000) (dkm * 1000) 0)) ∧
        (mkCandidate g (dkm * 1000) (dkm * 1000) 0).attemptsTried = 1) := by
  have hmain := genLoopAux_early_exit
  refine ⟨hmain, ?_⟩
  intro rt seeds lat lng dkm av g hg hlen hdist hpos hspur
  constructor
  · unfold generateLoopGeoJson
    have h10 : loopAttempts = 9 + 1 := rfl
    rw [h10]
    apply hmain rt seeds lat lng (dkm * 1000) av 0 9 none g (dkm * 1000) hg hlen hdist
      (by linarith) hspur
    · rw [sub_self, abs_zero, zero_div]
      norm_num
    · intro b hb
      exact Option.noConfusion hb
  · rfl

/-- Witness for C5: a provider whose first attempt reports a 2-point path
with provider distance exactly the 5000 m target early-exits with
`attemptsTried = 1`. -/
theorem claim_C5_witness :
    generateLoopGeoJson (fun _ => .ok ⟨[(0, 0), (1, 0)], some (5 * 1000), none⟩)
        (fun _ => 0) 52 4 5 true
      = .ok (some (mkCandidate ⟨[(0, 0), (1, 0)], some (5 * 1000), none⟩
          (5 * 1000) (5 * 1000) 0)) ∧
    (mkCandidate ⟨[(0, 0), (1, 0)], some (5 * 1000), none⟩
        (5 * 1000) (5 * 1000) 0).attemptsTried = 1 := by
  apply claim_C5.2 (fun _ => .ok ⟨[(0, 0), (1, 0)], some (5 * 1000), none⟩)
    (fun _ => 0) 52 4 5 true ⟨[(0, 0), (1, 0)], some (5 * 1000), none⟩
  · rfl
  · simp [getCoords]
  · rfl
  · norm_num
  · rintro ⟨_, hsp⟩
    have : hasShortOutAndBackSpur (getCoords
        (⟨[(0, 0), (1, 0)], some (5 * 1000), none⟩ : GeoJson)) 160 = false := by
      unfold hasShortOutAndBackSpur
      rw [if_pos (by simp [getCoords])]
    rw [this] at hsp
    exact Bool.noConfusion hsp

-- ---------------------------------------------------------------------------
-- C7: characterization of the filler search
-- ---------------------------------------------------------------------------

/-- Folding one attempt outcome into the running best (skipped attempts
leave it unchanged, valid ones go through the strict score comparison). -/
def chooseF (b : Option FillerCand) (c? : Option FillerCand) : Option FillerCand :=
  match c? with
  | none => b
  | some c => pickBestF b c

lemma bestFillerAux_step_err (rt : RtReq → Except PErr GeoJson) (seeds : ℕ → ℕ)
    (sLat sLng L : ℝ) (i fuel : ℕ) (best : Option FillerCand) (e : PErr)
    (hg : rt (fillerReq sLat sLng L seeds i) = .error e) :
    bestFillerAux rt seeds sLat sLng L i (fuel + 1) best = .error e := by
  simp only [bestFillerAux]
  rw [hg]

lemma bestFillerAux_step_ok (rt : RtReq → Except PErr GeoJson) (seeds : ℕ → ℕ)
    (sLat sLng L : ℝ) (i fuel : ℕ) (best : Option FillerCand) (g : GeoJson)
    (hg : rt (fillerReq sLat sLng L seeds i) = .ok g) :
    bestFillerAux rt seeds sLat sLng L i (fuel + 1) best
      = bestFillerAux rt seeds sLat sLng L (i + 1) fuel
          (chooseF best (fillerCandAt rt seeds sLat sLng L i)) := by
  simp only [bestFillerAux]
  unfold fillerCandAt
  rw [hg]
  by_cases hlen : (getCoords g).length < 2
  · simp only [if_pos hlen, chooseF]
  · simp only [if_neg hlen]
    cases hd : lineDistanceM (getCoords g) with
    | none => simp only [chooseF]
    | some dist =>
      by_cases h0 : dist = 0
      · simp only [if_pos h0, chooseF]
      · simp only [if_neg h0]
        cases hsp : hasShortOutAndBackSpur (getCoords g) 160 with
        | true => simp [chooseF]
        | false => simp [chooseF]

lemma bestFillerAux_eq_fold (rt : RtReq → Except PErr GeoJson) (seeds : ℕ → ℕ)
    (sLat sLng L : ℝ) :
    ∀ (fuel i : ℕ) (best : Option FillerCand),
      (∀ k, k < fuel → ∃ g, rt (fillerReq sLat sLng L seeds (i + k)) = .ok g) →
      bestFillerAux rt seeds sLat sLng L i fuel best
        = .ok (((List.range' i fuel).map
            (fillerCandAt rt seeds sLat sLng L)).foldl chooseF best) := by
  intro fuel
  induction fuel with
  | zero =>
    intro i best _
    rfl
  | succ fuel ih =>
    intro i best h
    obtain ⟨g, hg⟩ := h 0 (by omega)
    rw [show i + 0 = i from rfl] at hg
    rw [bestFillerAux_step_ok rt seeds sLat sLng L i fuel best g hg]
    rw [List.range'_succ, List.map_cons, List.foldl_cons]
    exact ih (i + 1) (chooseF best (fillerCandAt rt seeds sLat sLng L i))
      (fun k hk => by
        have := h (k + 1) (by omega)
        simpa [Nat.add_assoc, Nat.add_comm 1 k] using this)

lemma chooseF_eq_none_iff (b c : Option FillerCand) :
    chooseF b c = none ↔ b = none ∧ c = none := by
  cases c with
  | none => simp [chooseF]
  | some c' =>
    cases b with
    | none =>
      simp only [chooseF, pickBestF]
      constructor
      · intro h
        exact Option.noConfusion h
      · rintro ⟨_, h⟩
        exact Option.noConfusion h
    | some b' =>
      simp only [chooseF, pickBestF]
      constructor
      · intro h
        by_cases hsc : c'.score < b'.score
        · rw [if_pos hsc] at h
          exact Option.noConfusion h
        · rw [if_neg hsc] at h
          exact Option.noConfusion h
      · rintro ⟨h, _⟩
        exact Option.noConfusion h

lemma foldF_none_iff :
    ∀ (cs : List (Option FillerCand)) (b : Option FillerCand),
      cs.foldl chooseF b = none ↔ b = none ∧ ∀ c ∈ cs, c = none := by
  intro cs
  induction cs with
  | nil =>
    intro b
    simp
  | cons c rest ih =>
    intro b
    rw [List.foldl_cons, ih, chooseF_eq_none_iff]
    constructor
    · rintro ⟨⟨hb, hc⟩, hrest⟩
      refine ⟨hb, ?_⟩
      intro x hx
      rcases List.mem_cons.mp hx with hx1 | hx2
      · rw [hx1]
        exact hc
      · exact hrest x hx2
    · rintro ⟨hb, hall⟩
      exact ⟨⟨hb, hall c (List.mem_cons_self c rest)⟩,
        fun x hx => hall x (List.mem_cons_of_mem c hx)⟩

lemma foldF_some_spec :
    ∀ (cs : List (Option FillerCand)) (b : Option FillerCand) (r : FillerCand),
      cs.foldl chooseF b = some r →
      ((b = some r ∨ some r ∈ cs) ∧
       (∀ b', b = some b' → r.score ≤ b'.score) ∧
       (∀ c, some c ∈ cs → r.score ≤ c.score)) := by
  intro cs
  induction cs with
  | nil =>
    intro b r h
    have hb : b = some r := h
    refine ⟨Or.inl hb, ?_, ?_⟩
    · intro b' hb'
      rw [hb'] at hb
      rw [Option.some.inj hb]
    · intro c hc
      exact absurd hc (List.not_mem_nil _)
  | cons c? rest ih =>
    intro b r h
    rw [List.foldl_cons] at h
    obtain ⟨hmem, hminacc, hminrest⟩ := ih (chooseF b c?) r h
    have hpick : ∀ (b' c' : FillerCand), b = some b' → c? = some c' →
        (chooseF b c? = some c' ∧ c'.score < b'.score) ∨
        (chooseF b c? = some b' ∧ ¬ c'.score < b'.score) := by
      intro b' c' hb hc
      rw [hb, hc]
      by_cases hsc : c'.score < b'.score
      · exact Or.inl ⟨by simp [chooseF, pickBestF, hsc], hsc⟩
      · exact Or.inr ⟨by simp [chooseF, pickBestF, hsc], hsc⟩
    refine ⟨?_, ?_, ?_⟩
    · rcases hmem with hacc | hin
      · cases hc? : c? with
        | none =>
          rw [hc?] at hacc
          exact Or.inl hacc
        | some c' =>
          cases hb : b with
          | none =>
            rw [hc?, hb] at hacc
            have : some c' = some r := hacc
            right
            rw [← Option.some.inj this]
            exact List.mem_cons_self _ _
          | some b' =>
            rcases hpick b' c' hb hc? with ⟨heq, _⟩ | ⟨heq, _⟩
            · rw [hacc] at heq
              right
              rw [← Option.some.inj heq]
              exact List.mem_cons_self _ _
            · rw [hacc] at heq
              left
              exact heq.symm
      · exact Or.inr (List.mem_cons_of_mem _ hin)
    · intro b' hb'
      cases hc? : c? with
      | none =>
        apply hminacc
        rw [hc?, hb']
        rfl
      | some c' =>
        rcases hpick b' c' hb' hc? with ⟨heq, hsc⟩ | ⟨heq, _⟩
        · have := hminacc c' heq
          linarith
        · exact hminacc b' heq
    · intro c hc
      rcases List.mem_cons.mp hc with hc1 | hc2
      · cases hb : b with
        | none =>
          apply hminacc
          rw [← hc1, hb]
          rfl
        | some b' =>
          rcases hpick b' c hb hc1.symm with ⟨heq, _⟩ | ⟨heq, hsc⟩
          · exact hminacc c heq
          · have := hminacc b' heq
            push_neg at hsc
            linarith
      · exact hminrest c hc2

lemma bestFillerAux_propagates (rt : RtReq → Except PErr GeoJson) (seeds : ℕ → ℕ)
    (sLat sLng L : ℝ) :
    ∀ (j fuel i : ℕ) (best : Option FillerCand) (e : PErr),
      j < fuel →
      (∀ k, k < j → ∃ g, rt (fillerReq sLat sLng L seeds (i + k)) = .ok g) →
      rt (fillerReq sLat sLng L seeds (i + j)) = .error e →
      bestFillerAux rt seeds sLat sLng L i fuel best = .error e := by
  intro j
  induction j with
  | zero =>
    intro fuel i best e hj _ herr
    obtain ⟨fuel', rfl⟩ : ∃ fuel', fuel = fuel' + 1 := ⟨fuel - 1, by omega⟩
    rw [show i + 0 = i from rfl] at herr
    exact bestFillerAux_step_err rt seeds sLat sLng L i fuel' best e herr
  | succ j ih =>
    intro fuel i best e hj hskip herr
    obtain ⟨fuel', rfl⟩ : ∃ fuel', fuel = fuel' + 1 := ⟨fuel - 1, by omega⟩
    obtain ⟨g, hg⟩ := hskip 0 (by omega)
    rw [show i + 0 = i from rfl] at hg
    rw [bestFillerAux_step_ok rt seeds sLat sLng L i fuel' best g hg]
    refine ih fuel' (i + 1) _ e (by omega) (fun k hk => ?_) ?_
    · have := hskip (k + 1) (by omega)
      simpa [Nat.add_assoc, Nat.add_comm 1 k] using this
    · have : i + 1 + j = i + (j + 1) := by omega
      rw [this]
      exact herr

/-- Claim C7: the filler search scores each valid candidate as
`overlap * 1.0 + relativeError * 0.2`; when every attempt's provider call
succeeds it consults the whole budget and returns null exactly when no
attempt validated, otherwise the path of a lowest-scoring valid candidate;
a provider failure at any attempt index inside the budget propagates even
when an earlier attempt already produced a candidate (no early exit); and
the too-short patch step invokes it with a budget of exactly 14 attempts. -/
theorem claim_C7 :
    (∀ (coords : List Pt) (dist L : ℝ),
      fillerScore coords dist L
        = overlapRatio coords 20 * 1.0 + |dist - L| / L * 0.2) ∧
    (∀ (rt : RtReq → Except PErr GeoJson) (seeds : ℕ → ℕ)
        (sLat sLng L : ℝ) (attempts : ℕ),
      (∀ k, k < attempts → ∃ g, rt (fillerReq sLat sLng L seeds k) = .ok g) →
      (bestFillerRoundTrip rt seeds sLat sLng L attempts = .ok none ↔
        ∀ i, i < attempts → fillerCandAt rt seeds sLat sLng L i = none) ∧
      (∀ gj, bestFillerRoundTrip rt seeds sLat sLng L attempts = .ok (some gj) →
        ∃ i, i < attempts ∧ ∃ c, fillerCandAt rt seeds sLat sLng L i = some c ∧
          c.geojson = gj ∧
          ∀ j c', j < attempts → fillerCandAt rt seeds sLat sLng L j = some c' →
            c.score ≤ c'.score)) ∧
    (∀ (rt : RtReq → Except PErr GeoJson) (seeds : ℕ → ℕ)
        (sLat sLng L : ℝ) (attempts j : ℕ) (e : PErr),
      j < attempts →
      (∀ k, k < j → ∃ g, rt (fillerReq sLat sLng L seeds k) = .ok g) →
      rt (fillerReq sLat sLng L seeds j) = .error e →
      bestFillerRoundTrip rt seeds sLat sLng L attempts = .error e) ∧
    (∀ (rt : RtReq → Except PErr GeoJson) (seeds : ℕ → ℕ)
        (startLat startLng targetM : ℝ) (wps2 : List Wp) (gj : GeoJson) (d : ℝ),
      lineDistanceM (getCoords gj) = some d → d < targetM →
      patchIfShort rt seeds startLat startLng targetM wps2 gj
        = match bestFillerRoundTrip rt seeds
            (anchorFor (getCoords gj) startLat startLng wps2).1
            (anchorFor (getCoords gj) startLat startLng wps2).2
            (max 1600 ((jsRound (targetM - d) : ℤ) : ℝ)) 14 with
          | .error e => .error e
          | .ok none => .ok (gj, getCoords gj, some d)
          | .ok (some filler) =>
            .ok (concatRoutesGeoJson gj filler,
                 getCoords (concatRoutesGeoJson gj filler),
                 lineDistanceM (getCoords (concatRoutesGeoJson gj filler)))) := by
  refine ⟨fun _ _ _ => rfl, ?_, ?_, ?_⟩
  · intro rt seeds sLat sLng L attempts hok
    have hfold := bestFillerAux_eq_fold rt seeds sLat sLng L attempts 0 none
      (fun k hk => by simpa using hok k hk)
    constructor
    · unfold bestFillerRoundTrip
      rw [hfold]
      constructor
      · intro h
        have hnone : ((List.range' 0 attempts).map
            (fillerCandAt rt seeds sLat sLng L)).foldl chooseF none = none := by
          cases hfv : ((List.range' 0 attempts).map
              (fillerCandAt rt seeds sLat sLng L)).foldl chooseF none with
          | none => rfl
          | some v =>
            rw [hfv] at h
            exact Option.noConfusion (Except.ok.inj h)
        have := (foldF_none_iff _ none).mp hnone
        intro i hi
        exact this.2 _ (List.mem_map_of_mem _
          (by rw [List.mem_range'_1]; omega))
      · intro hall
        have : ((List.range' 0 attempts).map
            (fillerCandAt rt seeds sLat sLng L)).foldl chooseF none = none := by
          apply (foldF_none_iff _ none).mpr
          refine ⟨rfl, ?_⟩
          intro c hc
          obtain ⟨i, hi, rfl⟩ := List.mem_map.mp hc
          have hi' := List.mem_range'_1.mp hi
          exact hall i (by omega)
        rw [this]
        rfl
    · intro gj hgj
      unfold bestFillerRoundTrip at hgj
      rw [hfold] at hgj
      have hsome : ∃ r, ((List.range' 0 attempts).map
          (fillerCandAt rt seeds sLat sLng L)).foldl chooseF none = some r ∧
          r.geojson = gj := by
        cases hfv : ((List.range' 0 attempts).map
            (fillerCandAt rt seeds sLat sLng L)).foldl chooseF none with
        | none =>
          rw [hfv] at hgj
          exact Option.noConfusion (Except.ok.inj hgj)
        | some v =>
          rw [hfv] at hgj
          exact ⟨v, rfl, Option.some.inj (Except.ok.inj hgj)⟩
      obtain ⟨r, hr, hrg⟩ := hsome
      obtain ⟨hmem, _, hmin⟩ := foldF_some_spec _ none r hr
      rcases hmem with habs | hin
      · exact Option.noConfusion habs
      · obtain ⟨i, hi, hieq⟩ := List.mem_map.mp hin
        have hi' := List.mem_range'_1.mp hi
        refine ⟨i, by omega, r, hieq, hrg, ?_⟩
        intro j c' hj hc'
        apply hmin
        rw [← hc']
        exact List.mem_map_of_mem _ (by rw [List.mem_range'_1]; omega)
  · intro rt seeds sLat sLng L attempts j e hj hok herr
    unfold bestFillerRoundTrip
    rw [bestFillerAux_propagates rt seeds sLat sLng L j attempts 0 none e hj
      (fun k hk => by simpa using hok k hk) (by simpa using herr)]
    rfl
  · intro rt seeds startLat startLng targetM wps2 gj d hd hlt
    unfold patchIfShort
    rw [hd]
    simp only [if_pos hlt]

/-- Witness for C7 at concrete inputs: a provider always returning an empty
path makes the 14-attempt filler search return null; a provider that is
perfect on attempt 0 but rate-limited on attempt 1 still fails (no early
exit); and the patch step at a concrete short route reduces to the
14-attempt filler call. -/
theorem claim_C7_witness :
    (bestFillerRoundTrip (fun _ => .ok ⟨[], none, none⟩) (fun n => n) 0 0 1600 14
        = .ok none ↔
      ∀ i, i < 14 → fillerCandAt (fun _ => .ok ⟨[], none, none⟩) (fun n => n)
        0 0 1600 i = none) ∧
    bestFillerRoundTrip
        (fun req => if req.seed = 0 then .ok ⟨[(0, 0), (1, 0)], none, none⟩
          else .error .rateLimited) (fun n => n) 0 0 1600 14
      = .error .rateLimited := by
  constructor
  · exact ((claim_C7.2.1 (fun _ => .ok ⟨[], none, none⟩) (fun n => n) 0 0 1600 14
      (fun k _ => ⟨⟨[], none, none⟩, rfl⟩))).1
  · apply claim_C7.2.2.1 (fun req => if req.seed = 0 then
        .ok ⟨[(0, 0), (1, 0)], none, none⟩ else .error .rateLimited)
      (fun n => n) 0 0 1600 14 1 .rateLimited (by norm_num)
    · intro k hk
      have hk0 : k = 0 := by omega
      subst hk0
      exact ⟨⟨[(0, 0), (1, 0)], none, none⟩, rfl⟩
    · rfl

-- ---------------------------------------------------------------------------
-- C4: spur detector vs. its claimed characterization
-- ---------------------------------------------------------------------------

/-- Claim C4 (amended): `hasShortOutAndBackSpur` returns false below 40
points, and for longer sequences returns true exactly when some start index
`i < length - 19` (the range the outer loop actually scans) has a window
index triggering the spur conditions. -/
theorem claim_C4 :
    ∀ (seq : List Pt) (maxD : ℝ),
      (seq.length < 40 → hasShortOutAndBackSpur seq maxD = false) ∧
      (¬ seq.length < 40 →
        (hasShortOutAndBackSpur seq maxD = true ↔ spurWitnessCode seq maxD)) := by
  intro seq maxD
  constructor
  · intro h
    unfold hasShortOutAndBackSpur
    rw [if_pos h]
  · intro h
    exact hasSpur_iff seq maxD h

/-- A 40-point walk along the equator: 1-degree strides for the first 21
segments, then 18 coincident points at longitude 21. -/
def seq40 : List Pt := (List.range 40).map (fun i => (((min i 21 : ℕ) : ℝ), 0))

lemma seq40_length : seq40.length = 40 := by
  unfold seq40
  rw [List.length_map, List.length_range]

lemma seq40_getD (i : ℕ) (hi : i < 40) :
    seq40.getD i (0, 0) = (((min i 21 : ℕ) : ℝ), 0) := by
  unfold seq40
  rw [List.getD_eq_getElem?_getD, List.getElem?_map, List.getElem?_range hi]
  rfl

/-- Counterexample to C4 as stated: on `seq40` with `maxDetourMeters = 0`
the only spur-triggering start index is `21 = length - 19`, which the code
never scans — the function returns false although the claim's unrestricted
"some start index" condition holds. -/
theorem counterexample_C4 :
    hasShortOutAndBackSpur seq40 0 = false ∧ spurWitnessClaim seq40 0 := by
  have h40 : ¬ seq40.length < 40 := by rw [seq40_length]; omega
  constructor
  · cases hval : hasShortOutAndBackSpur seq40 0 with
    | false => rfl
    | true =>
      exfalso
      obtain ⟨i, hi, j, hjlt, h18, hback, hds⟩ := (hasSpur_iff seq40 0 h40).mp hval
      rw [seq40_length] at hi
      have hseg : havP (seq40.getD i (0, 0)) (seq40.getD (i + 1) (0, 0))
          = earthR * π / 180 * (((i + 1 : ℕ) : ℝ) - ((i : ℕ) : ℝ)) := by
        rw [seq40_getD i (by omega), seq40_getD (i + 1) (by omega)]
        have h1 : min i 21 = i := by omega
        have h2 : min (i + 1) 21 = i + 1 := by omega
        rw [h1, h2]
        show haversineM 0 ((i : ℕ) : ℝ) 0 ((i + 1 : ℕ) : ℝ) = _
        rw [haversineM_equator ((i : ℕ) : ℝ) ((i + 1 : ℕ) : ℝ)
          (by push_cast; linarith) (by push_cast; linarith)]
      have hposK : (0 : ℝ) < earthR * π / 180 := by
        have := Real.pi_pos
        unfold earthR
        positivity
      have hsegpos : 0 < havP (seq40.getD i (0, 0)) (seq40.getD (i + 1) (0, 0)) := by
        rw [hseg]
        push_cast
        nlinarith
      have hds1 : detourSum seq40 i (i + 1)
          = havP (seq40.getD i (0, 0)) (seq40.getD (i + 1) (0, 0)) := by
        rw [detourSum_succ seq40 i (i + 1) (by omega)]
        rw [show i + 1 - 1 = i from rfl, detourSum_self]
        ring
      have hge : detourSum seq40 i (i + 1) ≤ detourSum seq40 i j :=
        detourSum_mono seq40 i (by omega)
      linarith
  · refine ⟨21, 39, ?_, ?_, ?_, ?_⟩
    · rw [seq40_length]
      norm_num
    · norm_num
    · rw [seq40_getD 21 (by omega), seq40_getD 39 (by omega)]
      rw [show min 21 21 = 21 from rfl, show min 39 21 = 21 by omega]
      rw [havP_self]
      norm_num
    · unfold detourSum
      have hz : ∀ k ∈ Finset.Ico 22 40,
          havP (seq40.getD (k - 1) (0, 0)) (seq40.getD k (0, 0)) = 0 := by
        intro k hk
        rw [Finset.mem_Ico] at hk
        rw [seq40_getD (k - 1) (by omega), seq40_getD k (by omega)]
        rw [show min (k - 1) 21 = 21 by omega, show min k 21 = 21 by omega]
        exact havP_self _
      rw [show (21 : ℕ) + 1 = 22 from rfl, show (39 : ℕ) + 1 = 40 from rfl]
      rw [Finset.sum_congr rfl hz]
      simp

/-- Witness for C4: the short-sequence branch at the empty list, and the
iff at the concrete 40-point sequence. -/
theorem claim_C4_witness :
    hasShortOutAndBackSpur [] 0 = false ∧
    (hasShortOutAndBackSpur seq40 0 = true ↔ spurWitnessCode seq40 0) := by
  constructor
  · exact (claim_C4 [] 0).1 (by simp)
  · exact (claim_C4 seq40 0).2 (by rw [seq40_length]; omega)

-- ---------------------------------------------------------------------------
-- C3: overlap ratio vs. its claimed locality threshold
-- ---------------------------------------------------------------------------

/-- Claim C3 (amended): `overlapRatio` returns 1 below 3 points, and
otherwise equals overlapped-length over total-length when the total length
is positive (1 when it is zero), where a segment is overlapped exactly when
its midpoint cell was first visited MORE than 12 indices earlier. -/
theorem claim_C3 :
    ∀ (seq : List Pt) (g : ℝ),
      (seq.length < 3 → overlapRatio seq g = 1) ∧
      overlapRatio seq g = overlapRatioSpec 13 seq g := by
  intro seq g
  constructor
  · intro h
    unfold overlapRatio
    rw [if_pos h]
  · exact overlapRatio_eq_spec seq g

/-- One grid-cell width in degrees of longitude at the equator for
`gridMeters = 20`. -/
def u3 : ℝ := 20 / 111320

/-- A 14-point equator walk whose 13th segment's midpoint cell coincides
with the 1st segment's midpoint cell, exactly 12 indices later. -/
def seq14 : List Pt :=
  ([0, 2, 6, 10, 14, 18, 22, 26, 30, 34, 38, 42, 46, -44] : List ℤ).map
    (fun m => ((m : ℝ) * u3, 0))

lemma seq14_avgLat : avgLatOf seq14 = 0 := by
  unfold avgLatOf seq14
  norm_num

lemma seq14_snapLon : snapLonOf seq14 20 = 20 / 111320 := by
  unfold snapLonOf
  rw [seq14_avgLat]
  unfold toRad
  norm_num

lemma seq14_key_eval (i : ℕ) (m1 m2 c : ℤ)
    (hA : segPtA seq14 i = ((m1 : ℝ) * u3, 0))
    (hB : segPtB seq14 i = ((m2 : ℝ) * u3, 0))
    (hc : m1 + m2 = 2 * c) :
    segKey seq14 20 i = (0, c) := by
  unfold segKey
  rw [hA, hB, seq14_snapLon]
  show (jsRound (((0 : ℝ) + 0) / 2 / snapLatOf 20),
      jsRound (((m1 : ℝ) * u3 + (m2 : ℝ) * u3) / 2 / (20 / 111320))) = ((0 : ℤ), c)
  have hX : ((0 : ℝ) + 0) / 2 / snapLatOf 20 = 0 := by
    unfold snapLatOf
    norm_num
  have hY : ((m1 : ℝ) * u3 + (m2 : ℝ) * u3) / 2 / (20 / 111320) = ((c : ℤ) : ℝ) := by
    unfold u3
    have hc' : (m1 : ℝ) + m2 = 2 * c := by exact_mod_cast hc
    field_simp
    linarith
  rw [hX, hY, jsRound_zero, jsRound_intCast]

lemma seq14_k1 : segKey seq14 20 1 = (0, 1) :=
  seq14_key_eval 1 0 2 1 rfl rfl (by norm_num)

lemma seq14_k2 : segKey seq14 20 2 = (0, 4) :=
  seq14_key_eval 2 2 6 4 rfl rfl (by norm_num)

lemma seq14_k3 : segKey seq14 20 3 = (0, 8) :=
  seq14_key_eval 3 6 10 8 rfl rfl (by norm_num)

lemma seq14_k4 : segKey seq14 20 4 = (0, 12) :=
  seq14_key_eval 4 10 14 12 rfl rfl (by norm_num)

lemma seq14_k5 : segKey seq14 20 5 = (0, 16) :=
  seq14_key_eval 5 14 18 16 rfl rfl (by norm_num)

lemma seq14_k6 : segKey seq14 20 6 = (0, 20) :=
  seq14_key_eval 6 18 22 20 rfl rfl (by norm_num)

lemma seq14_k7 : segKey seq14 20 7 = (0, 24) :=
  seq14_key_eval 7 22 26 24 rfl rfl (by norm_num)

lemma seq14_k8 : segKey seq14 20 8 = (0, 28) :=
  seq14_key_eval 8 26 30 28 rfl rfl (by norm_num)

lemma seq14_k9 : segKey seq14 20 9 = (0, 32) :=
  seq14_key_eval 9 30 34 32 rfl rfl (by norm_num)

lemma seq14_k10 : segKey seq14 20 10 = (0, 36) :=
  seq14_key_eval 10 34 38 36 rfl rfl (by norm_num)

lemma seq14_k11 : segKey seq14 20 11 = (0, 40) :=
  seq14_key_eval 11 38 42 40 rfl rfl (by norm_num)

lemma seq14_k12 : segKey seq14 20 12 = (0, 44) :=
  seq14_key_eval 12 42 46 44 rfl rfl (by norm_num)

lemma seq14_k13 : segKey seq14 20 13 = (0, 1) :=
  seq14_key_eval 13 46 (-44) 1 rfl rfl (by norm_num)

lemma seq14_len : seq14.length = 14 := rfl

lemma seq14_fw1 : firstWithKey seq14 20 1 = 1 := by
  unfold firstWithKey
  rw [seq14_len, show (14 : ℕ) - 1 = 13 from rfl,
    show List.range' 1 13 = [1, 2, 3, 4, 5, 6, 7, 8, 9, 10, 11, 12, 13] from rfl]
  simp [List.find?, seq14_k1, seq14_k2, seq14_k3, seq14_k4, seq14_k5, seq14_k6,
    seq14_k7, seq14_k8, seq14_k9, seq14_k10, seq14_k11, seq14_k12, seq14_k13]

lemma seq14_fw2 : firstWithKey seq14 20 2 = 2 := by
  unfold firstWithKey
  rw [seq14_len, show (14 : ℕ) - 1 = 13 from rfl,
    show List.range' 1 13 = [1, 2, 3, 4, 5, 6, 7, 8, 9, 10, 11, 12, 13] from rfl]
  simp [List.find?, seq14_k1, seq14_k2, seq14_k3, seq14_k4, seq14_k5, seq14_k6,
    seq14_k7, seq14_k8, seq14_k9, seq14_k10, seq14_k11, seq14_k12, seq14_k13]

lemma seq14_fw3 : firstWithKey seq14 20 3 = 3 := by
  unfold firstWithKey
  rw [seq14_len, show (14 : ℕ) - 1 = 13 from rfl,
    show List.range' 1 13 = [1, 2, 3, 4, 5, 6, 7, 8, 9, 10, 11, 12, 13] from rfl]
  simp [List.find?, seq14_k1, seq14_k2, seq14_k3, seq14_k4, seq14_k5, seq14_k6,
    seq14_k7, seq14_k8, seq14_k9, seq14_k10, seq14_k11, seq14_k12, seq14_k13]

lemma seq14_fw4 : firstWithKey seq14 20 4 = 4 := by
  unfold firstWithKey
  rw [seq14_len, show (14 : ℕ) - 1 = 13 from rfl,
    show List.range' 1 13 = [1, 2, 3, 4, 5, 6, 7, 8, 9, 10, 11, 12, 13] from rfl]
  simp [List.find?, seq14_k1, seq14_k2, seq14_k3, seq14_k4, seq14_k5, seq14_k6,
    seq14_k7, seq14_k8, seq14_k9, seq14_k10, seq14_k11, seq14_k12, seq14_k13]

lemma seq14_fw5 : firstWithKey seq14 20 5 = 5 := by
  unfold firstWithKey
  rw [seq14_len, show (14 : ℕ) - 1 = 13 from rfl,
    show List.range' 1 13 = [1, 2, 3, 4, 5, 6, 7, 8, 9, 10, 11, 12, 13] from rfl]
  simp [List.find?, seq14_k1, seq14_k2, seq14_k3, seq14_k4, seq14_k5, seq14_k6,
    seq14_k7, seq14_k8, seq14_k9, seq14_k10, seq14_k11, seq14_k12, seq14_k13]

lemma seq14_fw6 : firstWithKey seq14 20 6 = 6 := by
  unfold firstWithKey
  rw [seq14_len, show (14 : ℕ) - 1 = 13 from rfl,
    show List.range' 1 13 = [1, 2, 3, 4, 5, 6, 7, 8, 9, 10, 11, 12, 13] from rfl]
  simp [List.find?, seq14_k1, seq14_k2, seq14_k3, seq14_k4, seq14_k5, seq14_k6,
    seq14_k7, seq14_k8, seq14_k9, seq14_k10, seq14_k11, seq14_k12, seq14_k13]

lemma seq14_fw7 : firstWithKey seq14 20 7 = 7 := by
  unfold firstWithKey
  rw [seq14_len, show (14 : ℕ) - 1 = 13 from rfl,
    show List.range' 1 13 = [1, 2, 3, 4, 5, 6, 7, 8, 9, 10, 11, 12, 13] from rfl]
  simp [List.find?, seq14_k1, seq14_k2, seq14_k3, seq14_k4, seq14_k5, seq14_k6,
    seq14_k7, seq14_k8, seq14_k9, seq14_k10, seq14_k11, seq14_k12, seq14_k13]

lemma seq14_fw8 : firstWithKey seq14 20 8 = 8 := by
  unfold firstWithKey
  rw [seq14_len, show (14 : ℕ) - 1 = 13 from rfl,
    show List.range' 1 13 = [1, 2, 3, 4, 5, 6, 7, 8, 9, 10, 11, 12, 13] from rfl]
  simp [List.find?, seq14_k1, seq14_k2, seq14_k3, seq14_k4, seq14_k5, seq14_k6,
    seq14_k7, seq14_k8, seq14_k9, seq14_k10, seq14_k11, seq14_k12, seq14_k13]

lemma seq14_fw9 : firstWithKey seq14 20 9 = 9 := by
  unfold firstWithKey
  rw [seq14_len, show (14 : ℕ) - 1 = 13 from rfl,
    show List.range' 1 13 = [1, 2, 3, 4, 5, 6, 7, 8, 9, 10, 11, 12, 13] from rfl]
  simp [List.find?, seq14_k1, seq14_k2, seq14_k3, seq14_k4, seq14_k5, seq14_k6,
    seq14_k7, seq14_k8, seq14_k9, seq14_k10, seq14_k11, seq14_k12, seq14_k13]

lemma seq14_fw10 : firstWithKey seq14 20 10 = 10 := by
  unfold firstWithKey
  rw [seq14_len, show (14 : ℕ) - 1 = 13 from rfl,
    show List.range' 1 13 = [1, 2, 3, 4, 5, 6, 7, 8, 9, 10, 11, 12, 13] from rfl]
  simp [List.find?, seq14_k1, seq14_k2, seq14_k3, seq14_k4, seq14_k5, seq14_k6,
    seq14_k7, seq14_k8, seq14_k9, seq14_k10, seq14_k11, seq14_k12, seq14_k13]

lemma seq14_fw11 : firstWithKey seq14 20 11 = 11 := by
  unfold firstWithKey
  rw [seq14_len, show (14 : ℕ) - 1 = 13 from rfl,
    show List.range' 1 13 = [1, 2, 3, 4, 5, 6, 7, 8, 9, 10, 11, 12, 13] from rfl]
  simp [List.find?, seq14_k1, seq14_k2, seq14_k3, seq14_k4, seq14_k5, seq14_k6,
    seq14_k7, seq14_k8, seq14_k9, seq14_k10, seq14_k11, seq14_k12, seq14_k13]

lemma seq14_fw12 : firstWithKey seq14 20 12 = 12 := by
  unfold firstWithKey
  rw [seq14_len, show (14 : ℕ) - 1 = 13 from rfl,
    show List.range' 1 13 = [1, 2, 3, 4, 5, 6, 7, 8, 9, 10, 11, 12, 13] from rfl]
  simp [List.find?, seq14_k1, seq14_k2, seq14_k3, seq14_k4, seq14_k5, seq14_k6,
    seq14_k7, seq14_k8, seq14_k9, seq14_k10, seq14_k11, seq14_k12, seq14_k13]

lemma seq14_fw13 : firstWithKey seq14 20 13 = 1 := by
  unfold firstWithKey
  rw [seq14_len, show (14 : ℕ) - 1 = 13 from rfl,
    show List.range' 1 13 = [1, 2, 3, 4, 5, 6, 7, 8, 9, 10, 11, 12, 13] from rfl]
  simp [List.find?, seq14_k1, seq14_k2, seq14_k3, seq14_k4, seq14_k5, seq14_k6,
    seq14_k7, seq14_k8, seq14_k9, seq14_k10, seq14_k11, seq14_k12, seq14_k13]

lemma seq14_ov13 : overlappedIdxs 13 seq14 20 = [] := by
  unfold overlappedIdxs
  rw [seq14_len, show (14 : ℕ) - 1 = 13 from rfl,
    show List.range' 1 13 = [1, 2, 3, 4, 5, 6, 7, 8, 9, 10, 11, 12, 13] from rfl]
  simp [List.filter, seq14_fw1, seq14_fw2, seq14_fw3, seq14_fw4, seq14_fw5,
    seq14_fw6, seq14_fw7, seq14_fw8, seq14_fw9, seq14_fw10, seq14_fw11,
    seq14_fw12, seq14_fw13]

lemma seq14_ov12 : overlappedIdxs 12 seq14 20 = [13] := by
  unfold overlappedIdxs
  rw [seq14_len, show (14 : ℕ) - 1 = 13 from rfl,
    show List.range' 1 13 = [1, 2, 3, 4, 5, 6, 7, 8, 9, 10, 11, 12, 13] from rfl]
  simp [List.filter, seq14_fw1, seq14_fw2, seq14_fw3, seq14_fw4, seq14_fw5,
    seq14_fw6, seq14_fw7, seq14_fw8, seq14_fw9, seq14_fw10, seq14_fw11,
    seq14_fw12, seq14_fw13]

lemma seq14_seg1_pos : 0 < segLenAt seq14 1 := by
  unfold segLenAt
  rw [show segPtA seq14 1 = (((0 : ℤ) : ℝ) * u3, 0) from rfl,
    show segPtB seq14 1 = (((2 : ℤ) : ℝ) * u3, 0) from rfl]
  show 0 < haversineM 0 (((0 : ℤ) : ℝ) * u3) 0 (((2 : ℤ) : ℝ) * u3)
  apply haversineM_equator_pos
  · unfold u3
    norm_num
  · unfold u3
    norm_num

lemma seq14_seg13_pos : 0 < segLenAt seq14 13 := by
  unfold segLenAt
  rw [show segPtA seq14 13 = (((46 : ℤ) : ℝ) * u3, 0) from rfl,
    show segPtB seq14 13 = (((-44 : ℤ) : ℝ) * u3, 0) from rfl]
  show 0 < haversineM 0 (((46 : ℤ) : ℝ) * u3) 0 (((-44 : ℤ) : ℝ) * u3)
  rw [haversineM_comm]
  apply haversineM_equator_pos
  · unfold u3
    norm_num
  · unfold u3
    norm_num

lemma seq14_total_pos : 0 < totalLenOf seq14 := by
  unfold totalLenOf
  rw [seq14_len, show (14 : ℕ) - 1 = 13 from rfl,
    show List.range' 1 13 = 1 :: List.range' 2 12 from rfl]
  rw [List.map_cons, List.sum_cons]
  have h2 : 0 ≤ (List.map (segLenAt seq14) (List.range' 2 12)).sum := by
    apply List.sum_nonneg
    intro x hx
    obtain ⟨i, _, rfl⟩ := List.mem_map.mp hx
    exact havP_nonneg _ _
  have h1 := seq14_seg1_pos
  linarith

/-- Counterexample to C3 as stated: on `seq14` the 13th segment's cell was
first visited exactly 12 indices earlier, so the claimed at-least-12 rule
counts it as overlapped (a positive ratio), while the code's strictly-more-
than-12 rule does not (ratio 0). -/
theorem counterexample_C3 :
    overlapRatio seq14 20 = 0 ∧
    overlapRatioClaim seq14 20 ≠ overlapRatio seq14 20 := by
  have hlen3 : ¬ seq14.length < 3 := by
    rw [seq14_len]
    omega
  have hcode : overlapRatio seq14 20 = 0 := by
    rw [overlapRatio_eq_spec]
    unfold overlapRatioSpec
    rw [if_neg hlen3, if_pos seq14_total_pos]
    unfold overlappedLenOf
    rw [seq14_ov13]
    simp
  refine ⟨hcode, ?_⟩
  rw [hcode]
  unfold overlapRatioClaim
  rw [if_neg hlen3]
  unfold overlappedLenOf
  rw [seq14_ov12]
  simp only [List.map_cons, List.map_nil, List.sum_cons, List.sum_nil, add_zero]
  exact ne_of_gt (div_pos seq14_seg13_pos seq14_total_pos)

/-- Witness for C3: the degenerate branch at the empty sequence, and the
amended equality at the concrete 14-point sequence. -/
theorem claim_C3_witness :
    overlapRatio [] 20 = 1 ∧ overlapRatio seq14 20 = overlapRatioSpec 13 seq14 20 := by
  constructor
  · exact (claim_C3 [] 20).1 (by simp)
  · exact (claim_C3 seq14 20).2

-- ---------------------------------------------------------------------------
-- C2: where the filler loop is spliced
-- ---------------------------------------------------------------------------

/-- The geojson carried by a success response of `/api/loop`. -/
def respGeo : LoopResp → Option GeoJson
  | .success _ _ _ _ _ g => some g
  | _ => none

/-- Modelled from the claim's words (for comparison with the source
behaviour): the filler inserted immediately after the anchor's position in
the path. -/
def spliceAfterAnchorClaim (base filler : List Pt) (anchorIdx : ℕ) : List Pt :=
  base.take (anchorIdx + 1) ++ filler ++ base.drop (anchorIdx + 1)

lemma patchIfShort_found (rt : RtReq → Except PErr GeoJson) (seeds : ℕ → ℕ)
    (startLat startLng targetM : ℝ) (wps2 : List Wp) (gj : GeoJson)
    (d : ℝ) (filler : GeoJson)
    (hd : lineDistanceM (getCoords gj) = some d) (hlt : d < targetM)
    (hfill : bestFillerRoundTrip rt seeds
        (anchorFor (getCoords gj) startLat startLng wps2).1
        (anchorFor (getCoords gj) startLat startLng wps2).2
        (max 1600 ((jsRound (targetM - d) : ℤ) : ℝ)) 14 = .ok (some filler)) :
    patchIfShort rt seeds startLat startLng targetM wps2 gj
      = .ok (concatRoutesGeoJson gj filler,
             getCoords (concatRoutesGeoJson gj filler),
             lineDistanceM (getCoords (concatRoutesGeoJson gj filler))) := by
  unfold patchIfShort
  rw [hd]
  simp only [if_pos hlt]
  rw [hfill]

lemma concatRoutes_semantics (g1 g2 : GeoJson)
    (h1 : getCoords g1 ≠ []) (h2 : getCoords g2 ≠ []) :
    getCoords (concatRoutesGeoJson g1 g2)
      = if |((getCoords g1).getD ((getCoords g1).length - 1) (0, 0)).1
            - ((getCoords g2).getD 0 (0, 0)).1| < 1e-6 ∧
           |((getCoords g1).getD ((getCoords g1).length - 1) (0, 0)).2
            - ((getCoords g2).getD 0 (0, 0)).2| < 1e-6
        then getCoords g1 ++ (getCoords g2).tail
        else getCoords g1 ++ getCoords g2 := by
  unfold concatRoutesGeoJson
  rw [if_neg (by rw [List.length_eq_zero]; exact h1),
    if_neg (by rw [List.length_eq_zero]; exact h2)]
  by_cases hc : |((getCoords g1).getD ((getCoords g1).length - 1) (0, 0)).1
        - ((getCoords g2).getD 0 (0, 0)).1| < 1e-6 ∧
      |((getCoords g1).getD ((getCoords g1).length - 1) (0, 0)).2
        - ((getCoords g2).getD 0 (0, 0)).2| < 1e-6
  · rw [if_pos hc, if_pos hc]
    rfl
  · rw [if_neg hc, if_neg hc]
    rfl

/-- Claim C2 (amended): when the base route is shorter than the target and
the filler search finds a loop, the composer appends the filler at the END
of the base route via `concatRoutesGeoJson` (not after the anchor's
position); the concatenation drops the filler's first point exactly when it
matches the base route's last point within 1e-6 per component. -/
theorem claim_C2 :
    (∀ (rt : RtReq → Except PErr GeoJson) (seeds : ℕ → ℕ)
        (startLat startLng targetM : ℝ) (wps2 : List Wp) (gj : GeoJson)
        (d : ℝ) (filler : GeoJson),
      lineDistanceM (getCoords gj) = some d → d < targetM →
      bestFillerRoundTrip rt seeds
          (anchorFor (getCoords gj) startLat startLng wps2).1
          (anchorFor (getCoords gj) startLat startLng wps2).2
          (max 1600 ((jsRound (targetM - d) : ℤ) : ℝ)) 14 = .ok (some filler) →
      patchIfShort rt seeds startLat startLng targetM wps2 gj
        = .ok (concatRoutesGeoJson gj filler,
               getCoords (concatRoutesGeoJson gj filler),
               lineDistanceM (getCoords (concatRoutesGeoJson gj filler)))) ∧
    (∀ g1 g2 : GeoJson, getCoords g1 ≠ [] → getCoords g2 ≠ [] →
      getCoords (concatRoutesGeoJson g1 g2)
        = if |((getCoords g1).getD ((getCoords g1).length - 1) (0, 0)).1
              - ((getCoords g2).getD 0 (0, 0)).1| < 1e-6 ∧
             |((getCoords g1).getD ((getCoords g1).length - 1) (0, 0)).2
              - ((getCoords g2).getD 0 (0, 0)).2| < 1e-6
          then getCoords g1 ++ (getCoords g2).tail
          else getCoords g1 ++ getCoords g2) :=
  ⟨patchIfShort_found, concatRoutes_semantics⟩

/-- The base directions route of the C2 scenario: a 4-point loop along the
meridian lng = 1 from latitude 1 out to latitude 1.01 and back. -/
def baseGeoC2 : GeoJson :=
  ⟨[(1, 1), (1, 1 + 1 / 250), (1, 1 + 1 / 100), (1, 1)], none, none⟩

/-- The filler loop of the C2 scenario: a 2-point path starting at latitude
1.5 on the same meridian (far from the base route's last point). -/
def fillerGeoC2 : GeoJson := ⟨[(1, 3 / 2), (1, 3 / 2 + 1 / 250)], none, none⟩

/-- Directions stub: always the base route. -/
def dirsC2 : DirReq → Except PErr GeoJson := fun _ => .ok baseGeoC2

/-- Round-trip stub: invalid (empty) payloads for seeds 0–12, the filler on
seed 13. -/
def rtC2 : RtReq → Except PErr GeoJson :=
  fun req => if req.seed ≤ 12 then .ok ⟨[], none, none⟩ else .ok fillerGeoC2

lemma c2_base_dist :
    lineDistanceM (getCoords baseGeoC2) = some (earthR * π / 180 * (1 / 50)) := by
  unfold lineDistanceM
  rw [if_neg (by rw [show (getCoords baseGeoC2).length = 4 from rfl]; omega)]
  congr 1
  show havP (1, 1) (1, 1 + 1 / 250)
      + (havP (1, 1 + 1 / 250) (1, 1 + 1 / 100)
        + (havP (1, 1 + 1 / 100) (1, 1) + 0)) = _
  have h1 : havP (1, 1) (1, 1 + 1 / 250)
      = earthR * π / 180 * (1 + 1 / 250 - 1) :=
    haversineM_meridian 1 (1 + 1 / 250) 1 (by norm_num) (by norm_num)
  have h2 : havP (1, 1 + 1 / 250) (1, 1 + 1 / 100)
      = earthR * π / 180 * (1 + 1 / 100 - (1 + 1 / 250)) :=
    haversineM_meridian (1 + 1 / 250) (1 + 1 / 100) 1 (by norm_num) (by norm_num)
  have h3 : havP (1, 1 + 1 / 100) (1, 1)
      = earthR * π / 180 * (1 + 1 / 100 - 1) := by
    show haversineM (1 + 1 / 100) 1 1 1 = _
    rw [haversineM_comm]
    exact haversineM_meridian 1 (1 + 1 / 100) 1 (by norm_num) (by norm_num)
  rw [h1, h2, h3]
  ring

lemma c2_base_lt : earthR * π / 180 * (1 / 50) < 10 * 1000 := by
  have h := equatorK_lt
  nlinarith

lemma c2_far :
    farthestPointFromStart (getCoords baseGeoC2) 1 1
      = some ⟨1 + 1 / 100, 1, earthR * π / 180 * (1 + 1 / 100 - 1)⟩ := by
  have hK0 : (0 : ℝ) < earthR * π / 180 := by
    have := Real.pi_pos
    unfold earthR
    positivity
  have h1 : haversineM 1 1 (1 + 1 / 250) 1 = earthR * π / 180 * (1 + 1 / 250 - 1) :=
    haversineM_meridian 1 (1 + 1 / 250) 1 (by norm_num) (by norm_num)
  have h2 : haversineM 1 1 (1 + 1 / 100) 1 = earthR * π / 180 * (1 + 1 / 100 - 1) :=
    haversineM_meridian 1 (1 + 1 / 100) 1 (by norm_num) (by norm_num)
  unfold farthestPointFromStart
  rw [if_neg (by rw [show (getCoords baseGeoC2).length = 4 from rfl]; omega)]
  congr 1
  show List.foldl (farStep 1 1) ⟨0, 0, -1⟩
      [((1 : ℝ), (1 : ℝ)), (1, 1 + 1 / 250), (1, 1 + 1 / 100), (1, 1)] = _
  rw [List.foldl_cons, List.foldl_cons, List.foldl_cons, List.foldl_cons,
    List.foldl_nil]
  have e0 : farStep 1 1 ⟨0, 0, -1⟩ ((1 : ℝ), (1 : ℝ)) = ⟨1, 1, 0⟩ := by
    unfold farStep
    show (if (-1 : ℝ) < haversineM 1 1 1 1 then
        (⟨1, 1, haversineM 1 1 1 1⟩ : FarPt) else ⟨0, 0, -1⟩) = _
    rw [haversineM_self]
    rw [if_pos (by norm_num : (-1 : ℝ) < 0)]
  rw [e0]
  have e1 : farStep 1 1 ⟨1, 1, 0⟩ ((1 : ℝ), 1 + 1 / 250)
      = ⟨1 + 1 / 250, 1, earthR * π / 180 * (1 + 1 / 250 - 1)⟩ := by
    unfold farStep
    show (if (0 : ℝ) < haversineM 1 1 (1 + 1 / 250) 1 then
        (⟨1 + 1 / 250, 1, haversineM 1 1 (1 + 1 / 250) 1⟩ : FarPt)
      else ⟨1, 1, 0⟩) = _
    rw [h1]
    rw [if_pos (by nlinarith)]
  rw [e1]
  have e2 : farStep 1 1 ⟨1 + 1 / 250, 1, earthR * π / 180 * (1 + 1 / 250 - 1)⟩
        ((1 : ℝ), 1 + 1 / 100)
      = ⟨1 + 1 / 100, 1, earthR * π / 180 * (1 + 1 / 100 - 1)⟩ := by
    unfold farStep
    show (if earthR * π / 180 * (1 + 1 / 250 - 1) < haversineM 1 1 (1 + 1 / 100) 1 then
        (⟨1 + 1 / 100, 1, haversineM 1 1 (1 + 1 / 100) 1⟩ : FarPt)
      else ⟨1 + 1 / 250, 1, earthR * π / 180 * (1 + 1 / 250 - 1)⟩) = _
    rw [h2]
    rw [if_pos (by nlinarith)]
  rw [e2]
  unfold farStep
  show (if earthR * π / 180 * (1 + 1 / 100 - 1) < haversineM 1 1 1 1 then
      (⟨1, 1, haversineM 1 1 1 1⟩ : FarPt)
    else ⟨1 + 1 / 100, 1, earthR * π / 180 * (1 + 1 / 100 - 1)⟩) = _
  rw [haversineM_self]
  rw [if_neg (by nlinarith)]

lemma c2_anchor (w : List Wp) :
    anchorFor (getCoords baseGeoC2) 1 1 w = (1 + 1 / 100, 1) := by
  have hd : (600 : ℝ) ≤ earthR * π / 180 * (1 + 1 / 100 - 1) := by
    have h := equatorK_gt
    nlinarith
  unfold anchorFor
  rw [c2_far]
  show (if (600 : ℝ) ≤ earthR * π / 180 * (1 + 1 / 100 - 1) then
      ((1 + 1 / 100 : ℝ), (1 : ℝ))
    else
      match w.head? with
      | some w' => (w'.lat, w'.lng)
      | none => ((1 : ℝ), (1 : ℝ))) = ((1 + 1 / 100 : ℝ), (1 : ℝ))
  rw [if_pos hd]

lemma c2_filler (aLat aLng Lf : ℝ) :
    bestFillerRoundTrip rtC2 (fun n => n) aLat aLng Lf 14 = .ok (some fillerGeoC2) := by
  have hok : ∀ i : ℕ, i ≤ 12 →
      rtC2 (fillerReq aLat aLng Lf (fun n => n) i) = .ok ⟨[], none, none⟩ := by
    intro i hi
    unfold rtC2
    show (if i ≤ 12 then Except.ok (⟨[], none, none⟩ : GeoJson)
      else Except.ok fillerGeoC2) = _
    rw [if_pos hi]
  have hok13 : rtC2 (fillerReq aLat aLng Lf (fun n => n) 13) = .ok fillerGeoC2 := by
    unfold rtC2
    show (if (13 : ℕ) ≤ 12 then Except.ok (⟨[], none, none⟩ : GeoJson)
      else Except.ok fillerGeoC2) = _
    rw [if_neg (by omega)]
  have hcand : ∀ i : ℕ, i ≤ 12 →
      fillerCandAt rtC2 (fun n => n) aLat aLng Lf i = none := by
    intro i hi
    unfold fillerCandAt
    rw [hok i hi]
    rfl
  have hfd : lineDistanceM (getCoords fillerGeoC2)
      = some (havP (1, 3 / 2) (1, 3 / 2 + 1 / 250) + 0) := by
    unfold lineDistanceM
    rw [if_neg (by rw [show (getCoords fillerGeoC2).length = 2 from rfl]; omega)]
    rfl
  have hfpos : 0 < havP (1, 3 / 2) (1, 3 / 2 + 1 / 250) + 0 := by
    rw [add_zero]
    exact haversineM_meridian_pos (3 / 2) (3 / 2 + 1 / 250) 1 (by norm_num) (by norm_num)
  have hspur : hasShortOutAndBackSpur (getCoords fillerGeoC2) 160 = false := by
    unfold hasShortOutAndBackSpur
    rw [if_pos (by rw [show (getCoords fillerGeoC2).length = 2 from rfl]; omega)]
  have hcand13 : fillerCandAt rtC2 (fun n => n) aLat aLng Lf 13
      = some ⟨fillerGeoC2, fillerScore (getCoords fillerGeoC2)
          (havP (1, 3 / 2) (1, 3 / 2 + 1 / 250) + 0) Lf⟩ := by
    unfold fillerCandAt
    rw [hok13]
    show (if (getCoords fillerGeoC2).length < 2 then none
      else match lineDistanceM (getCoords fillerGeoC2) with
        | none => none
        | some dist =>
          if dist = 0 then none
          else if hasShortOutAndBackSpur (getCoords fillerGeoC2) 160 = true then none
          else some (⟨fillerGeoC2,
            fillerScore (getCoords fillerGeoC2) dist Lf⟩ : FillerCand)) = _
    rw [if_neg (by rw [show (getCoords fillerGeoC2).length = 2 from rfl]; omega)]
    rw [hfd]
    show (if (havP (1, 3 / 2) (1, 3 / 2 + 1 / 250) + 0) = 0 then none
      else if hasShortOutAndBackSpur (getCoords fillerGeoC2) 160 = true then none
      else some (⟨fillerGeoC2, fillerScore (getCoords fillerGeoC2)
        (havP (1, 3 / 2) (1, 3 / 2 + 1 / 250) + 0) Lf⟩ : FillerCand)) = _
    rw [if_neg (by
      intro h0
      rw [h0] at hfpos
      exact absurd hfpos (lt_irrefl 0))]
    rw [hspur]
    rw [if_neg (by exact Bool.false_ne_true)]
  unfold bestFillerRoundTrip
  rw [bestFillerAux_eq_fold rtC2 (fun n => n) aLat aLng Lf 14 0 none
    (fun k hk => by
      by_cases hk12 : k ≤ 12
      · exact ⟨_, by simpa using hok k hk12⟩
      · have hk13 : k = 13 := by omega
        subst hk13
        exact ⟨_, by simpa using hok13⟩)]
  rw [show List.range' 0 14 = [0, 1, 2, 3, 4, 5, 6, 7, 8, 9, 10, 11, 12, 13] from rfl]
  rw [List.map_cons, List.map_cons, List.map_cons, List.map_cons, List.map_cons,
    List.map_cons, List.map_cons, List.map_cons, List.map_cons, List.map_cons,
    List.map_cons, List.map_cons, List.map_cons, List.map_cons, List.map_nil]
  rw [hcand 0 (by omega), hcand 1 (by omega), hcand 2 (by omega), hcand 3 (by omega),
    hcand 4 (by omega), hcand 5 (by omega), hcand 6 (by omega), hcand 7 (by omega),
    hcand 8 (by omega), hcand 9 (by omega), hcand 10 (by omega), hcand 11 (by omega),
    hcand 12 (by omega), hcand13]
  rfl

lemma c2_concat :
    concatRoutesGeoJson baseGeoC2 fillerGeoC2
      = makeLineStringGeoJson (getCoords baseGeoC2 ++ getCoords fillerGeoC2) := by
  unfold concatRoutesGeoJson
  rw [if_neg (by rw [show (getCoords baseGeoC2).length = 4 from rfl]; omega)]
  rw [if_neg (by rw [show (getCoords fillerGeoC2).length = 2 from rfl]; omega)]
  rw [if_neg ?hcond]
  case hcond =>
    rintro ⟨_, h2⟩
    rw [show ((getCoords baseGeoC2).getD ((getCoords baseGeoC2).length - 1) (0, 0))
        = ((1 : ℝ), (1 : ℝ)) from rfl,
      show ((getCoords fillerGeoC2).getD 0 (0, 0)) = ((1 : ℝ), (3 / 2 : ℝ)) from rfl] at h2
    have h2' := abs_lt.mp h2
    norm_num at h2'

lemma c2_patch (w : List Wp) :
    patchIfShort rtC2 (fun n => n) 1 1 (10 * 1000) w baseGeoC2
      = .ok (concatRoutesGeoJson baseGeoC2 fillerGeoC2,
             getCoords (concatRoutesGeoJson baseGeoC2 fillerGeoC2),
             lineDistanceM (getCoords (concatRoutesGeoJson baseGeoC2 fillerGeoC2))) := by
  apply patchIfShort_found rtC2 (fun n => n) 1 1 (10 * 1000) w baseGeoC2
    (earthR * π / 180 * (1 / 50)) fillerGeoC2 c2_base_dist c2_base_lt
  exact c2_filler _ _ _

/-- Counterexample to C2 as stated: in a run whose anchor is the base
route's index 2 point, the filler ends up appended after the base route's
final point, not immediately after the anchor's position — the composed
coordinates differ from the claim's splice at the anchor index. -/
theorem counterexample_C2 :
    respGeo (apiLoop rtC2 dirsC2 (fun n => n) false (some 1) (some 1) (some 10) none
        [⟨2, 2⟩, ⟨3, 3⟩])
      = some (makeLineStringGeoJson (getCoords baseGeoC2 ++ getCoords fillerGeoC2)) ∧
    anchorFor (getCoords baseGeoC2) 1 1 [⟨2, 2⟩, ⟨3, 3⟩] = (1 + 1 / 100, 1) ∧
    (getCoords baseGeoC2).getD 2 (0, 0) = (1, 1 + 1 / 100) ∧
    getCoords (makeLineStringGeoJson (getCoords baseGeoC2 ++ getCoords fillerGeoC2))
      ≠ spliceAfterAnchorClaim (getCoords baseGeoC2) (getCoords fillerGeoC2) 2 := by
  refine ⟨?_, c2_anchor _, rfl, ?_⟩
  · unfold apiLoop
    have hg : (jsFalsyNum (some (1 : ℝ)) || jsFalsyNum (some (1 : ℝ))
        || jsFalsyNum (some (10 : ℝ))) = false := by
      norm_num [jsFalsyNum]
    rw [hg]
    rw [if_neg (by exact Bool.false_ne_true)]
    rw [if_neg (by
      rw [show (normalizeWaypoints [(⟨2, 2⟩ : Wp), ⟨3, 3⟩]).length = 2 from rfl]
      omega)]
    have hdirs : ∀ X, dirsC2 X = .ok baseGeoC2 := fun _ => rfl
    rw [hdirs]
    rw [show ((some (1 : ℝ)).getD 0) = (1 : ℝ) from rfl,
      show ((some (10 : ℝ)).getD 0) = (10 : ℝ) from rfl]
    rw [show apiLoopWpFinish rtC2 (fun n => n) 1 1 (10 * 1000)
        (if (normalizeWaypoints [(⟨2, 2⟩ : Wp), ⟨3, 3⟩]).length = 1 then
          [(normalizeWaypoints [(⟨2, 2⟩ : Wp), ⟨3, 3⟩]).headD ⟨0, 0⟩,
           makeDetourWaypoint false ⟨1, 1⟩
             ((normalizeWaypoints [(⟨2, 2⟩ : Wp), ⟨3, 3⟩]).headD ⟨0, 0⟩)
             (max 250 (min 900 (10 * 1000 * 0.08)))]
         else normalizeWaypoints [(⟨2, 2⟩ : Wp), ⟨3, 3⟩]) (.ok baseGeoC2)
      = match patchIfShort rtC2 (fun n => n) 1 1 (10 * 1000)
          (if (normalizeWaypoints [(⟨2, 2⟩ : Wp), ⟨3, 3⟩]).length = 1 then
            [(normalizeWaypoints [(⟨2, 2⟩ : Wp), ⟨3, 3⟩]).headD ⟨0, 0⟩,
             makeDetourWaypoint false ⟨1, 1⟩
               ((normalizeWaypoints [(⟨2, 2⟩ : Wp), ⟨3, 3⟩]).headD ⟨0, 0⟩)
               (max 250 (min 900 (10 * 1000 * 0.08)))]
           else normalizeWaypoints [(⟨2, 2⟩ : Wp), ⟨3, 3⟩]) baseGeoC2 with
        | .error e => LoopResp.caught e
        | .ok (gj2, coords2, dist2) =>
          LoopResp.success (10 * 1000) dist2 (overlapRatio coords2 20)
            (loopDistError dist2 (10 * 1000)) 1 gj2 from rfl]
    rw [c2_patch]
    rw [c2_concat]
    rfl
  · intro h
    have h3 := congrArg (fun l => (l.getD 3 ((0 : ℝ), (0 : ℝ))).2) h
    simp only [spliceAfterAnchorClaim, getCoords, baseGeoC2, fillerGeoC2,
      makeLineStringGeoJson] at h3
    norm_num [List.getD] at h3

/-- Witness for C2 at the concrete scenario: the patch step equality and
the concatenation semantics, both instantiated with the C2 data. -/
theorem claim_C2_witness :
    patchIfShort rtC2 (fun n => n) 1 1 (10 * 1000) [] baseGeoC2
      = .ok (concatRoutesGeoJson baseGeoC2 fillerGeoC2,
             getCoords (concatRoutesGeoJson baseGeoC2 fillerGeoC2),
             lineDistanceM (getCoords (concatRoutesGeoJson baseGeoC2 fillerGeoC2))) ∧
    getCoords (concatRoutesGeoJson baseGeoC2 fillerGeoC2)
      = if |((getCoords baseGeoC2).getD ((getCoords baseGeoC2).length - 1) (0, 0)).1
            - ((getCoords fillerGeoC2).getD 0 (0, 0)).1| < 1e-6 ∧
           |((getCoords baseGeoC2).getD ((getCoords baseGeoC2).length - 1) (0, 0)).2
            - ((getCoords fillerGeoC2).getD 0 (0, 0)).2| < 1e-6
        then getCoords baseGeoC2 ++ (getCoords fillerGeoC2).tail
        else getCoords baseGeoC2 ++ getCoords fillerGeoC2 := by
  constructor
  · exact claim_C2.1 rtC2 (fun n => n) 1 1 (10 * 1000) [] baseGeoC2
      (earthR * π / 180 * (1 / 50)) fillerGeoC2 c2_base_dist c2_base_lt
      (c2_filler _ _ _)
  · exact claim_C2.2 baseGeoC2 fillerGeoC2 (by simp [getCoords, baseGeoC2])
      (by simp [getCoords, fillerGeoC2])

end

end LoopRoute
